import Mathlib

/-!
# Qi: view cache entries and line-resize mouse controllers

A shallow embedding of `src/cache/CacheView.cpp` and
`src/items/misc/ControllerMouseLinesResizer.cpp`.

Conventions of the embedding

* C++ `int` is embedded as `Int`.  Signed overflow is undefined behaviour in
  C++, so the program has a defined result only where the mathematical result
  fits the machine type, and there the two agree.
* `Q_ASSERT` is embedded as an abort: an operation returns `Outcome.aborted`
  together with the state reached at the failed assertion.
* Pointers to collaborators that the code only dereferences (`Layout`, `View`)
  are embedded as optional addresses, `none` being the null pointer; the
  behaviour behind an address is looked up in `Collaborators`.
* Collaborators that the code only calls into (`Lines::setLineSize`) are
  embedded by the log of calls they received.
-/

namespace Qi

/-! ## Outcomes -/

/-- Why an operation did not return. -/
inductive Abort where
  | assertion
  | nullDereference
deriving DecidableEq, Repr

/-- Result of running an operation on a state of type `σ`: it either returns
normally in a state, or stops at a failed `Q_ASSERT` (or a null dereference) in
the state reached at that point. -/
inductive Outcome (σ : Type) where
  | done (s : σ)
  | aborted (why : Abort) (s : σ)
deriving DecidableEq, Repr

/-- Sequencing: the next operation runs only if the previous one returned. -/
def Outcome.andThen {σ : Type} (o : Outcome σ) (f : σ → Outcome σ) : Outcome σ :=
  match o with
  | .done s => f s
  | .aborted why s => .aborted why s

/-- The operation stopped at a failed `Q_ASSERT`. -/
def Outcome.isViolation {σ : Type} : Outcome σ → Bool
  | .aborted .assertion _ => true
  | _ => false

/-- The state in which the operation ended, whether it returned or not. -/
def Outcome.state {σ : Type} : Outcome σ → σ
  | .done s => s
  | .aborted _ s => s

/-! ## Qt value types -/

/-- Qt `QPoint`. -/
structure QPoint where
  x : Int
  y : Int
deriving DecidableEq, Repr

/-- Qt `QRect`, stored as Qt stores it: the coordinates of the left, top, right
and bottom edges. -/
structure QRect where
  x1 : Int
  y1 : Int
  x2 : Int
  y2 : Int
deriving DecidableEq, Repr

namespace QRect

def left (r : QRect) : Int := r.x1
def top (r : QRect) : Int := r.y1
def right (r : QRect) : Int := r.x2
def bottom (r : QRect) : Int := r.y2
def topLeft (r : QRect) : QPoint := ⟨r.x1, r.y1⟩
def setLeft (r : QRect) (v : Int) : QRect := { r with x1 := v }
def setRight (r : QRect) (v : Int) : QRect := { r with x2 := v }
def setTop (r : QRect) (v : Int) : QRect := { r with y1 := v }
def setBottom (r : QRect) (v : Int) : QRect := { r with y2 := v }

end QRect

/-- Qt `Qt::CursorShape`, with the shapes the controllers name. -/
inductive CursorShape where
  | ArrowCursor
  | SplitVCursor
  | SplitHCursor
  | OtherCursor (code : Nat)
deriving DecidableEq, Repr

/-- Qt `QCursor`. -/
structure QCursor where
  shape : CursorShape
deriving DecidableEq, Repr

/-- Qt `QWidget`, as far as the controllers use it: `rect()`, `cursor()`,
`setCursor()`. -/
structure QWidget where
  rect : QRect
  cursor : QCursor
deriving DecidableEq, Repr

def QWidget.setCursor (w : QWidget) (c : QCursor) : QWidget := { w with cursor := c }

/-- Qt `QMouseEvent`, as far as the controllers use it: `x()`, `y()`. -/
structure QMouseEvent where
  x : Int
  y : Int
deriving DecidableEq, Repr

/-- Qt `QRubberBand`: the drag-feedback visual. -/
structure QRubberBand where
  geometry : QRect
  visible : Bool
deriving DecidableEq, Repr

def QRubberBand.setGeometry (b : QRubberBand) (r : QRect) : QRubberBand := { b with geometry := r }
def QRubberBand.show (b : QRubberBand) : QRubberBand := { b with visible := true }

/-- Qt `QPainter`: a handle on the drawing surface. -/
structure QPainter where
  handle : Nat
deriving DecidableEq, Repr

/-- Identity of a grid item (`ItemID`): the fields `row` and `column` that the
controllers read. -/
structure ItemID where
  row : Int
  column : Int
deriving DecidableEq, Repr

/-- The GUI context (`GuiContext`): the owning widget and the pointer
position, the two fields the code reads. -/
structure GuiContext where
  widget : QWidget
  point : QPoint
deriving DecidableEq, Repr

/-! ## CacheView -/

/-- A cache entry (`CacheView`): `m_layout`, `m_view`, `m_rect`,
`m_showTooltip`, `m_subViews`. -/
inductive CacheView where
  | mk (m_layout : Option Nat) (m_view : Option Nat) (m_rect : QRect)
      (m_showTooltip : Bool) (m_subViews : List CacheView)

namespace CacheView

def m_layout : CacheView → Option Nat
  | mk l _ _ _ _ => l

def m_view : CacheView → Option Nat
  | mk _ v _ _ _ => v

def m_rect : CacheView → QRect
  | mk _ _ r _ _ => r

def m_showTooltip : CacheView → Bool
  | mk _ _ _ t _ => t

def m_subViews : CacheView → List CacheView
  | mk _ _ _ _ subs => subs

/-- Write to the `mutable` member `m_showTooltip`. -/
def setShowTooltip : CacheView → Bool → CacheView
  | mk l v r _ subs, t => mk l v r t subs

/-- The accessor `rect()`. -/
def rect (e : CacheView) : QRect := e.m_rect

end CacheView

/-- The rendering context handed to a View (`CacheContext`). -/
structure CacheContext where
  item : ItemID
  itemRect : QRect
  cacheView : CacheView
  visibleRect : Option QRect

/-- The behaviour of a `View` object.  `draw` yields what the view wrote through
its `bool*` out-parameter, `none` when it wrote nothing; `tooltipText` yields
its boolean result and the content of the output string afterwards. -/
structure View where
  draw : QPainter → GuiContext → CacheContext → Option Bool
  tooltipText : ItemID → String → Bool × String

/-- The behaviour of a `Layout` object. -/
structure Layout where
  isFloat : Bool

/-- The objects behind the addresses stored in cache entries. -/
structure Collaborators where
  view : Nat → View
  layout : Nat → Layout

namespace CacheView

/-- The default constructor `CacheView::CacheView()`: null layout and view, a
default (null) rectangle, and `Q_ASSERT(false)`. -/
def default : Outcome CacheView :=
  .aborted .assertion (mk none none ⟨0, 0, -1, -1⟩ false [])

/-- The constructor `CacheView::CacheView(layout, view, rect)`. -/
def new (layout view : Option Nat) (rect : QRect) : Outcome CacheView :=
  let e := mk layout view rect false []
  if layout.isNone then .aborted .assertion e
  else if view.isNone then .aborted .assertion e
  else .done e

/-- The copy constructor `CacheView::CacheView(const CacheView&)`. -/
def copy (other : CacheView) : CacheView :=
  mk other.m_layout other.m_view other.m_rect other.m_showTooltip other.m_subViews

/-- The assignment `CacheView::operator=`; the result is the target afterwards. -/
def assign (self other : CacheView) : CacheView :=
  match self with
  | mk _ _ _ _ _ =>
    mk other.m_layout other.m_view other.m_rect other.m_showTooltip other.m_subViews

/-- The method `CacheView::draw`. -/
def draw (env : Collaborators) (self : CacheView) (painter : QPainter) (ctx : GuiContext)
    (item : ItemID) (itemRect : QRect) (visibleRect : Option QRect) : Outcome CacheView :=
  let self := self.setShowTooltip false
  match self.m_view with
  | none => .aborted .nullDereference self
  | some v =>
    let self :=
      match (env.view v).draw painter ctx ⟨item, itemRect, self, visibleRect⟩ with
      | some written => self.setShowTooltip written
      | none => self
    match self.m_layout with
    | none => .aborted .nullDereference self
    | some l => if (env.layout l).isFloat then .done self else .done self

/-- The method `CacheView::cleanupDraw`. -/
def cleanupDraw (_env : Collaborators) (self : CacheView) (_painter : QPainter)
    (_ctx : GuiContext) (_item : ItemID) (_itemRect : QRect) (_visibleRect : Option QRect) :
    Outcome CacheView :=
  match self.m_view with
  | none => .aborted .nullDereference self
  | some _ => .done self

/-- The method `CacheView::tooltipText`: the boolean result and the content of
the output string afterwards. -/
def tooltipText (env : Collaborators) (self : CacheView) (item : ItemID) (tooltipText : String) :
    Outcome (Bool × String) :=
  if !self.m_showTooltip then .done (false, tooltipText)
  else
    match self.m_view with
    | none => .aborted .nullDereference (false, tooltipText)
    | some v => .done ((env.view v).tooltipText item tooltipText)

end CacheView

/-- A call on a cache entry through its `const` interface. -/
inductive EntryCall where
  | draw (painter : QPainter) (ctx : GuiContext) (item : ItemID) (itemRect : QRect)
      (visibleRect : Option QRect)
  | cleanupDraw (painter : QPainter) (ctx : GuiContext) (item : ItemID) (itemRect : QRect)
      (visibleRect : Option QRect)
  | tooltipText (item : ItemID) (tooltipText : String)

/-- Whether the call is a `draw`. -/
def EntryCall.isDraw : EntryCall → Bool
  | .draw _ _ _ _ _ => true
  | _ => false

namespace CacheView

/-- One call on the entry; the state afterwards is the entry. -/
def step (env : Collaborators) (self : CacheView) : EntryCall → Outcome CacheView
  | .draw painter ctx item itemRect visibleRect => draw env self painter ctx item itemRect visibleRect
  | .cleanupDraw painter ctx item itemRect visibleRect =>
    cleanupDraw env self painter ctx item itemRect visibleRect
  | .tooltipText item text =>
    match tooltipText env self item text with
    | .done _ => .done self
    | .aborted why _ => .aborted why self

/-- A sequence of calls on the entry, stopping at the first one that does not
return. -/
def run (env : Collaborators) (self : CacheView) : List EntryCall → Outcome CacheView
  | [] => .done self
  | c :: cs => (step env self c).andThen (fun e => run env e cs)

end CacheView

/-! ## Collaborators of the mouse controllers -/

/-- Modelled from the spec: the line collection (`Lines`, declared in
`space/Lines.h`, which is not part of the sources): "mutated only by
`setLineSize(index, size)`".  It is embedded by the calls it received, oldest
first. -/
structure Lines where
  setLineSizeCalls : List (Int × Int)
deriving DecidableEq, Repr

/-- One call `setLineSize(index, size)`. -/
def Lines.setLineSize (l : Lines) (index size : Int) : Lines :=
  { l with setLineSizeCalls := l.setLineSizeCalls ++ [(index, size)] }

/-- The cache part of an activation info (`activationInfo.cache`): the cache
entry of the hit item and the item rectangle. -/
structure CacheItem where
  cacheView : CacheView
  itemRect : QRect

/-- The snapshot handed to `acceptImpl` and `activateImpl` (`ActivationInfo`):
the members `cache`, `context` and the result of `item()`. -/
structure ActivationInfo where
  cache : CacheItem
  context : GuiContext
  item : ItemID

/-- The state reached through `activationState()`: its GUI context. -/
structure ActivationState where
  context : GuiContext
deriving DecidableEq, Repr

/-- The accessor `activationState().point()`. -/
def ActivationState.point (a : ActivationState) : QPoint := a.context.point

/-- Modelled from the spec: the base class `ControllerMouseCaptured` (declared
in headers that are not part of the sources).  The spec gives it the flags
`active` and `capturing` of the gesture state, and a GUI host that "supplies
the owning widget's bounding rectangle, current cursor, and pointer event
coordinates"; the host is what `activationState()` reaches. -/
structure ControllerMouseCaptured where
  priority : Nat
  active : Bool
  capturing : Bool
  activationState : ActivationState
deriving DecidableEq, Repr

namespace ControllerMouseCaptured

/-- Modelled from the spec: the base constructor; a new controller is idle. -/
def new (priority : Nat) (host : GuiContext) : ControllerMouseCaptured :=
  { priority := priority, active := false, capturing := false, activationState := ⟨host⟩ }

/-- Modelled from the spec: `isActive()` is the flag `active` of the gesture
state. -/
def isActive (b : ControllerMouseCaptured) : Bool := b.active

/-- Modelled from the spec: the base `activateImpl`, "transition Idle/Accepted →
Active", which "fails only if called while already active"; the snapshot's GUI
context becomes the activation state. -/
def activateImpl (b : ControllerMouseCaptured) (activationInfo : ActivationInfo) :
    Outcome ControllerMouseCaptured :=
  if b.active then .aborted .assertion b
  else .done { b with active := true, activationState := ⟨activationInfo.context⟩ }

/-- Modelled from the spec: the base part of the hook `deactivateImpl`, the
state change of "transition Active/Capturing → Idle", which "must be safe to
call even if capturing was never started".  The hook cannot reach the
drag-feedback visual, a member of the resizers; the release of a capture that
is still running, which the spec makes an obligation of `deactivate`, is
modelled in the public `deactivate` of the resizers, which stops the capture
through `stopCapturingImpl` before the hook runs. -/
def deactivateImpl (b : ControllerMouseCaptured) : ControllerMouseCaptured :=
  { b with active := false, capturing := false }

/-- Modelled from the spec: the base `startCapturingImpl`, "transition Active →
Capturing". -/
def startCapturingImpl (b : ControllerMouseCaptured) : ControllerMouseCaptured :=
  { b with capturing := true }

/-- Modelled from the spec: the base `stopCapturingImpl`, "transition Capturing →
Active". -/
def stopCapturingImpl (b : ControllerMouseCaptured) : ControllerMouseCaptured :=
  { b with capturing := false }

/-- Modelled from the spec: the base `processMouseMove`, "not handled, to allow
the chain to reconsider". -/
def processMouseMove (b : ControllerMouseCaptured) (_event : QMouseEvent) :
    Bool × ControllerMouseCaptured :=
  (false, b)

/-- Modelled from the spec: the GUI host "supplies ... pointer event
coordinates": the pointer position of the activation state follows the pointer. -/
def pointerAt (b : ControllerMouseCaptured) (p : QPoint) : ControllerMouseCaptured :=
  { b with activationState := ⟨{ b.activationState.context with point := p }⟩ }

end ControllerMouseCaptured

/-! ## The resizers -/

/-- The constant `ToleranseZone`. -/
def ToleranseZone : Int := 3

/-- The constant `MinLineSize`. -/
def MinLineSize : Int := 5

/-- The state of a `ControllerMouseColumnsResizer`: the base sub-object and the
members `m_columns`, `m_delta`, `m_position`, `m_trackPosition`,
`m_columnIndex`, `m_oldCursor`, `m_rubberBand` (`none` is `nullptr`). -/
structure ControllerMouseColumnsResizer where
  base : ControllerMouseCaptured
  m_columns : Lines
  m_delta : Int
  m_position : Int
  m_trackPosition : Int
  m_columnIndex : Int
  m_oldCursor : QCursor
  m_rubberBand : Option QRubberBand
deriving DecidableEq, Repr

/-- The state of a `ControllerMouseRowsResizer`: the base sub-object and the
members `m_rows`, `m_delta`, `m_position`, `m_trackPosition`, `m_rowIndex`,
`m_oldCursor`, `m_rubberBand` (`none` is `nullptr`). -/
structure ControllerMouseRowsResizer where
  base : ControllerMouseCaptured
  m_rows : Lines
  m_delta : Int
  m_position : Int
  m_trackPosition : Int
  m_rowIndex : Int
  m_oldCursor : QCursor
  m_rubberBand : Option QRubberBand
deriving DecidableEq, Repr

/-- A call the host makes on a controller: the lifecycle methods, a pointer move
event, and the host recording where the pointer is. -/
inductive HostCall where
  | accept (activationInfo : ActivationInfo)
  | activate (activationInfo : ActivationInfo)
  | deactivate
  | startCapturing
  | stopCapturing
  | apply
  | mouseMove (event : QMouseEvent)
  | pointerAt (p : QPoint)

/-- The calls that may occur between `startCapturing` and the release: pointer
move events and the host recording the pointer position. -/
def HostCall.isMove : HostCall → Bool
  | .mouseMove _ => true
  | .pointerAt _ => true
  | _ => false

/-- Whether the call is `deactivate`. -/
def HostCall.isDeactivate : HostCall → Bool
  | .deactivate => true
  | _ => false

section Resizers

/- The constant `InvalidIndex` is declared in a header that is not part of the
sources; the controllers are embedded for every value of it. -/
variable (InvalidIndex : Int)

namespace ControllerMouseColumnsResizer

/-- The constructor; `m_oldCursor` is default-constructed (an arrow cursor). -/
def new (columns : Lines) (priority : Nat) (host : GuiContext) : ControllerMouseColumnsResizer :=
  { base := ControllerMouseCaptured.new priority host
    m_columns := columns
    m_delta := 0
    m_position := 0
    m_trackPosition := 0
    m_columnIndex := InvalidIndex
    m_oldCursor := ⟨.ArrowCursor⟩
    m_rubberBand := none }

/-- The method `processMouseMove`: the `handled` result and the state afterwards. -/
def processMouseMove (s : ControllerMouseColumnsResizer) (event : QMouseEvent) :
    Bool × ControllerMouseColumnsResizer :=
  match s.m_rubberBand with
  | some band =>
    let rect := s.base.activationState.context.widget.rect
    let rect := rect.setLeft event.x
    let rect := rect.setRight event.x
    (true, { s with m_rubberBand := some (band.setGeometry rect) })
  | none =>
    let r := ControllerMouseCaptured.processMouseMove s.base event
    (r.1, { s with base := r.2 })

/-- The method `acceptImpl`: the result and the state afterwards (`m_delta` is
written although the method is `const`). -/
def acceptImpl (s : ControllerMouseColumnsResizer) (activationInfo : ActivationInfo) :
    Bool × ControllerMouseColumnsResizer :=
  let s := { s with m_delta := activationInfo.cache.cacheView.rect.right - activationInfo.context.point.x }
  if |s.m_delta| ≤ ToleranseZone then (true, s) else (false, s)

/-- The method `activateImpl`. -/
def activateImpl (s : ControllerMouseColumnsResizer) (activationInfo : ActivationInfo) :
    Outcome ControllerMouseColumnsResizer :=
  match ControllerMouseCaptured.activateImpl s.base activationInfo with
  | .aborted why b => .aborted why { s with base := b }
  | .done b =>
    let s := { s with base := b }
    let s := { s with m_position := activationInfo.cache.itemRect.topLeft.x }
    let s := { s with m_trackPosition := activationInfo.context.point.x }
    let s := { s with m_columnIndex := activationInfo.item.column }
    let s := { s with m_oldCursor := s.base.activationState.context.widget.cursor }
    let widget := s.base.activationState.context.widget.setCursor ⟨.SplitHCursor⟩
    .done { s with base := { s.base with
      activationState := ⟨{ s.base.activationState.context with widget := widget }⟩ } }

/-- The method `deactivateImpl`. -/
def deactivateImpl (s : ControllerMouseColumnsResizer) : Outcome ControllerMouseColumnsResizer :=
  let s := { s with m_position := 0 }
  let s := { s with m_trackPosition := 0 }
  let s := { s with m_columnIndex := InvalidIndex }
  let widget := s.base.activationState.context.widget.setCursor s.m_oldCursor
  let s := { s with base := { s.base with
    activationState := ⟨{ s.base.activationState.context with widget := widget }⟩ } }
  .done { s with base := ControllerMouseCaptured.deactivateImpl s.base }

/-- The method `startCapturingImpl`. -/
def startCapturingImpl (s : ControllerMouseColumnsResizer) : Outcome ControllerMouseColumnsResizer :=
  let s := { s with base := ControllerMouseCaptured.startCapturingImpl s.base }
  if s.m_rubberBand.isSome then .aborted .assertion s
  else
    let widget := s.base.activationState.context.widget
    let band : QRubberBand := ⟨⟨0, 0, -1, -1⟩, false⟩
    let rect := widget.rect
    let rect := rect.setLeft s.base.activationState.point.x
    let rect := rect.setRight s.base.activationState.point.x
    let band := band.setGeometry rect
    let band := band.show
    .done { s with m_rubberBand := some band }

/-- The method `stopCapturingImpl`. -/
def stopCapturingImpl (s : ControllerMouseColumnsResizer) : Outcome ControllerMouseColumnsResizer :=
  if s.m_rubberBand.isNone then .aborted .assertion s
  else
    let s := { s with m_rubberBand := none }
    .done { s with base := ControllerMouseCaptured.stopCapturingImpl s.base }

/-- The method `applyImpl`. -/
def applyImpl (s : ControllerMouseColumnsResizer) : Outcome ControllerMouseColumnsResizer :=
  if !s.base.isActive then .aborted .assertion s
  else if s.m_columnIndex = InvalidIndex then .aborted .assertion s
  else
    let size := max MinLineSize (s.base.activationState.point.x - s.m_position + s.m_delta)
    .done { s with m_columns := s.m_columns.setLineSize s.m_columnIndex size }

/-- Modelled from the spec: the public `deactivate()` of the base class, whose
body is not part of the sources.  The spec makes the release of the
drag-feedback visual an obligation of `deactivate` ("guaranteed released in
`stopCapturing`/`deactivate` on every exit path, including an aborted
gesture"): a capture that is still running is stopped first, through the hook
`stopCapturingImpl`, then the hook `deactivateImpl` runs. -/
def deactivate (s : ControllerMouseColumnsResizer) : Outcome ControllerMouseColumnsResizer :=
  if s.base.capturing then (stopCapturingImpl s).andThen (deactivateImpl InvalidIndex)
  else deactivateImpl InvalidIndex s

/-- Modelled from the spec: the public `startCapturing()` of the base class,
whose body is not part of the sources: "transition Active → Capturing".  On a
controller that is not active the call is out of order, which the spec makes a
precondition violation ("calling a lifecycle method out of order ... surfaced
as immediate fatal assertions"); on an active one the hook
`startCapturingImpl` runs. -/
def startCapturing (s : ControllerMouseColumnsResizer) : Outcome ControllerMouseColumnsResizer :=
  if s.base.isActive then startCapturingImpl s else .aborted .assertion s

/-- One host call on the controller: `deactivate` is the public method, which
stops a running capture before the hook; the other lifecycle calls go to the
hooks of the resizer. -/
def step (s : ControllerMouseColumnsResizer) : HostCall → Outcome ControllerMouseColumnsResizer
  | .accept activationInfo => .done (acceptImpl s activationInfo).2
  | .activate activationInfo => activateImpl s activationInfo
  | .deactivate => deactivate InvalidIndex s
  | .startCapturing => startCapturingImpl s
  | .stopCapturing => stopCapturingImpl s
  | .apply => applyImpl InvalidIndex s
  | .mouseMove event => .done (processMouseMove s event).2
  | .pointerAt p => .done { s with base := s.base.pointerAt p }

/-- A sequence of host calls, stopping at the first one that does not return. -/
def run (s : ControllerMouseColumnsResizer) : List HostCall → Outcome ControllerMouseColumnsResizer
  | [] => .done s
  | c :: cs => (step InvalidIndex s c).andThen (fun s1 => run s1 cs)

/-- One lifecycle call in the state machine of the spec: as `step`, with
`startCapturing` going through the public method, which rejects the call on a
controller that is not active. -/
def lifecycle (s : ControllerMouseColumnsResizer) : HostCall → Outcome ControllerMouseColumnsResizer
  | .startCapturing => startCapturing s
  | c => step InvalidIndex s c

/-- A sequence of lifecycle calls, stopping at the first one that does not
return. -/
def lifecycleRun (s : ControllerMouseColumnsResizer) :
    List HostCall → Outcome ControllerMouseColumnsResizer
  | [] => .done s
  | c :: cs => (lifecycle InvalidIndex s c).andThen (fun s1 => lifecycleRun s1 cs)

end ControllerMouseColumnsResizer

namespace ControllerMouseRowsResizer

/-- The constructor; `m_oldCursor` is default-constructed (an arrow cursor). -/
def new (rows : Lines) (priority : Nat) (host : GuiContext) : ControllerMouseRowsResizer :=
  { base := ControllerMouseCaptured.new priority host
    m_rows := rows
    m_delta := 0
    m_position := 0
    m_trackPosition := 0
    m_rowIndex := InvalidIndex
    m_oldCursor := ⟨.ArrowCursor⟩
    m_rubberBand := none }

/-- The method `processMouseMove`: the `handled` result and the state afterwards. -/
def processMouseMove (s : ControllerMouseRowsResizer) (event : QMouseEvent) :
    Bool × ControllerMouseRowsResizer :=
  match s.m_rubberBand with
  | some band =>
    let rect := s.base.activationState.context.widget.rect
    let rect := rect.setTop event.y
    let rect := rect.setBottom event.y
    (true, { s with m_rubberBand := some (band.setGeometry rect) })
  | none =>
    let r := ControllerMouseCaptured.processMouseMove s.base event
    (r.1, { s with base := r.2 })

/-- The method `acceptImpl`: the result and the state afterwards (`m_delta` is
written although the method is `const`). -/
def acceptImpl (s : ControllerMouseRowsResizer) (activationInfo : ActivationInfo) :
    Bool × ControllerMouseRowsResizer :=
  let s := { s with m_delta := activationInfo.cache.cacheView.rect.bottom - activationInfo.context.point.y }
  if |s.m_delta| < ToleranseZone then (true, s) else (false, s)

/-- The method `activateImpl`. -/
def activateImpl (s : ControllerMouseRowsResizer) (activationInfo : ActivationInfo) :
    Outcome ControllerMouseRowsResizer :=
  match ControllerMouseCaptured.activateImpl s.base activationInfo with
  | .aborted why b => .aborted why { s with base := b }
  | .done b =>
    let s := { s with base := b }
    let s := { s with m_position := activationInfo.cache.itemRect.topLeft.y }
    let s := { s with m_trackPosition := activationInfo.context.point.y }
    let s := { s with m_rowIndex := activationInfo.item.row }
    let s := { s with m_oldCursor := s.base.activationState.context.widget.cursor }
    let widget := s.base.activationState.context.widget.setCursor ⟨.SplitVCursor⟩
    .done { s with base := { s.base with
      activationState := ⟨{ s.base.activationState.context with widget := widget }⟩ } }

/-- The method `deactivateImpl`. -/
def deactivateImpl (s : ControllerMouseRowsResizer) : Outcome ControllerMouseRowsResizer :=
  let s := { s with m_position := 0 }
  let s := { s with m_trackPosition := 0 }
  let s := { s with m_rowIndex := InvalidIndex }
  let widget := s.base.activationState.context.widget.setCursor s.m_oldCursor
  let s := { s with base := { s.base with
    activationState := ⟨{ s.base.activationState.context with widget := widget }⟩ } }
  .done { s with base := ControllerMouseCaptured.deactivateImpl s.base }

/-- The method `startCapturingImpl`. -/
def startCapturingImpl (s : ControllerMouseRowsResizer) : Outcome ControllerMouseRowsResizer :=
  let s := { s with base := ControllerMouseCaptured.startCapturingImpl s.base }
  if s.m_rubberBand.isSome then .aborted .assertion s
  else
    let widget := s.base.activationState.context.widget
    let band : QRubberBand := ⟨⟨0, 0, -1, -1⟩, false⟩
    let rect := widget.rect
    let rect := rect.setTop s.base.activationState.point.y
    let rect := rect.setBottom s.base.activationState.point.y
    let band := band.setGeometry rect
    let band := band.show
    .done { s with m_rubberBand := some band }

/-- The method `stopCapturingImpl`. -/
def stopCapturingImpl (s : ControllerMouseRowsResizer) : Outcome ControllerMouseRowsResizer :=
  if s.m_rubberBand.isNone then .aborted .assertion s
  else
    let s := { s with m_rubberBand := none }
    .done { s with base := ControllerMouseCaptured.stopCapturingImpl s.base }

/-- The method `applyImpl`. -/
def applyImpl (s : ControllerMouseRowsResizer) : Outcome ControllerMouseRowsResizer :=
  if !s.base.isActive then .aborted .assertion s
  else if s.m_rowIndex = InvalidIndex then .aborted .assertion s
  else
    let size := max MinLineSize (s.base.activationState.point.y - s.m_position + s.m_delta)
    .done { s with m_rows := s.m_rows.setLineSize s.m_rowIndex size }

/-- Modelled from the spec: the public `deactivate()` of the base class, whose
body is not part of the sources.  The spec makes the release of the
drag-feedback visual an obligation of `deactivate` ("guaranteed released in
`stopCapturing`/`deactivate` on every exit path, including an aborted
gesture"): a capture that is still running is stopped first, through the hook
`stopCapturingImpl`, then the hook `deactivateImpl` runs. -/
def deactivate (s : ControllerMouseRowsResizer) : Outcome ControllerMouseRowsResizer :=
  if s.base.capturing then (stopCapturingImpl s).andThen (deactivateImpl InvalidIndex)
  else deactivateImpl InvalidIndex s

/-- Modelled from the spec: the public `startCapturing()` of the base class,
whose body is not part of the sources: "transition Active → Capturing".  On a
controller that is not active the call is out of order, which the spec makes a
precondition violation ("calling a lifecycle method out of order ... surfaced
as immediate fatal assertions"); on an active one the hook
`startCapturingImpl` runs. -/
def startCapturing (s : ControllerMouseRowsResizer) : Outcome ControllerMouseRowsResizer :=
  if s.base.isActive then startCapturingImpl s else .aborted .assertion s

/-- One host call on the controller: `deactivate` is the public method, which
stops a running capture before the hook; the other lifecycle calls go to the
hooks of the resizer. -/
def step (s : ControllerMouseRowsResizer) : HostCall → Outcome ControllerMouseRowsResizer
  | .accept activationInfo => .done (acceptImpl s activationInfo).2
  | .activate activationInfo => activateImpl s activationInfo
  | .deactivate => deactivate InvalidIndex s
  | .startCapturing => startCapturingImpl s
  | .stopCapturing => stopCapturingImpl s
  | .apply => applyImpl InvalidIndex s
  | .mouseMove event => .done (processMouseMove s event).2
  | .pointerAt p => .done { s with base := s.base.pointerAt p }

/-- A sequence of host calls, stopping at the first one that does not return. -/
def run (s : ControllerMouseRowsResizer) : List HostCall → Outcome ControllerMouseRowsResizer
  | [] => .done s
  | c :: cs => (step InvalidIndex s c).andThen (fun s1 => run s1 cs)

/-- One lifecycle call in the state machine of the spec: as `step`, with
`startCapturing` going through the public method, which rejects the call on a
controller that is not active. -/
def lifecycle (s : ControllerMouseRowsResizer) : HostCall → Outcome ControllerMouseRowsResizer
  | .startCapturing => startCapturing s
  | c => step InvalidIndex s c

/-- A sequence of lifecycle calls, stopping at the first one that does not
return. -/
def lifecycleRun (s : ControllerMouseRowsResizer) :
    List HostCall → Outcome ControllerMouseRowsResizer
  | [] => .done s
  | c :: cs => (lifecycle InvalidIndex s c).andThen (fun s1 => lifecycleRun s1 cs)

end ControllerMouseRowsResizer

end Resizers

/-! ## Concrete values used to exercise the statements -/

/-- A view that asks for a tooltip on every draw and answers `tip`, at address
2, and a view that never writes its out-parameter elsewhere; no layout floats. -/
def exampleCollaborators : Collaborators :=
  { view := fun a =>
      if a = 2 then ⟨fun _ _ _ => some true, fun _ _ => (true, "tip")⟩
      else ⟨fun _ _ _ => none, fun _ text => (false, text)⟩
    layout := fun _ => ⟨false⟩ }

/-- A widget of 640 by 480 with an arrow cursor. -/
def exampleWidget : QWidget := ⟨⟨0, 0, 639, 479⟩, ⟨.ArrowCursor⟩⟩

/-- A cache entry with the given rectangle. -/
def exampleCacheView (rect : QRect) : CacheView := .mk (some 1) (some 2) rect false []

/-- An activation info with the given cache-entry rectangle, item rectangle,
pointer position and item. -/
def exampleInfo (cacheRect itemRect : QRect) (point : QPoint) (item : ItemID) : ActivationInfo :=
  { cache := ⟨exampleCacheView cacheRect, itemRect⟩, context := ⟨exampleWidget, point⟩, item := item }

/-- An active column resizer: anchor 20, delta 1, pointer at x = 150, column 2. -/
def exampleActiveColumns : ControllerMouseColumnsResizer :=
  { base := { priority := 0, active := true, capturing := false,
              activationState := ⟨⟨exampleWidget, ⟨150, 30⟩⟩⟩ }
    m_columns := ⟨[]⟩
    m_delta := 1
    m_position := 20
    m_trackPosition := 99
    m_columnIndex := 2
    m_oldCursor := ⟨.ArrowCursor⟩
    m_rubberBand := none }

/-- An active row resizer: anchor 10, delta 0, pointer at y = 8, row 4. -/
def exampleActiveRows : ControllerMouseRowsResizer :=
  { base := { priority := 0, active := true, capturing := false,
              activationState := ⟨⟨exampleWidget, ⟨30, 8⟩⟩⟩ }
    m_rows := ⟨[]⟩
    m_delta := 0
    m_position := 10
    m_trackPosition := 50
    m_rowIndex := 4
    m_oldCursor := ⟨.ArrowCursor⟩
    m_rubberBand := none }

/-! ## Sequencing -/

theorem Outcome.andThen_eq_done {σ : Type} (o : Outcome σ) (f : σ → Outcome σ) (s2 : σ) :
    o.andThen f = .done s2 ↔ ∃ s1, o = .done s1 ∧ f s1 = .done s2 := by
  cases o with
  | done s => simp [Outcome.andThen]
  | aborted why s => simp [Outcome.andThen]

/-! ## Size clamp of `applyImpl` -/

/-- C1. For both resizers, `applyImpl` on an active controller with a valid
line index returns normally, having called `setLineSize(index, size)` exactly
once (the call log grows by that one entry and nothing else changes) with
`size = max 5 (p - anchor + delta)`, where `p` is the pointer coordinate of the
activation state; so `size ≥ 5`, and `size = 5` exactly when
`p - anchor + delta ≤ 5`, negative raw sizes included. -/
theorem C1_apply_clamps_size (InvalidIndex : Int) :
    (∀ (s : ControllerMouseColumnsResizer) (anchor delta p : Int),
      s.base.isActive = true → s.m_columnIndex ≠ InvalidIndex →
      s.m_position = anchor → s.m_delta = delta → s.base.activationState.point.x = p →
        ControllerMouseColumnsResizer.applyImpl InvalidIndex s
            = .done { s with m_columns :=
                ⟨s.m_columns.setLineSizeCalls ++ [(s.m_columnIndex, max 5 (p - anchor + delta))]⟩ }
          ∧ 5 ≤ max 5 (p - anchor + delta)
          ∧ (max 5 (p - anchor + delta) = 5 ↔ p - anchor + delta ≤ 5)
          ∧ (p - anchor + delta < 0 → max 5 (p - anchor + delta) = 5)) ∧
    (∀ (s : ControllerMouseRowsResizer) (anchor delta p : Int),
      s.base.isActive = true → s.m_rowIndex ≠ InvalidIndex →
      s.m_position = anchor → s.m_delta = delta → s.base.activationState.point.y = p →
        ControllerMouseRowsResizer.applyImpl InvalidIndex s
            = .done { s with m_rows :=
                ⟨s.m_rows.setLineSizeCalls ++ [(s.m_rowIndex, max 5 (p - anchor + delta))]⟩ }
          ∧ 5 ≤ max 5 (p - anchor + delta)
          ∧ (max 5 (p - anchor + delta) = 5 ↔ p - anchor + delta ≤ 5)
          ∧ (p - anchor + delta < 0 → max 5 (p - anchor + delta) = 5)) := by
  constructor
  · intro s anchor delta p hact hidx ha hd hp
    subst ha hd hp
    refine ⟨?_, le_max_left _ _, ?_, ?_⟩
    · simp [ControllerMouseColumnsResizer.applyImpl, hact, hidx, MinLineSize, Lines.setLineSize]
    · exact max_eq_left_iff
    · intro h
      exact max_eq_left (by omega)
  · intro s anchor delta p hact hidx ha hd hp
    subst ha hd hp
    refine ⟨?_, le_max_left _ _, ?_, ?_⟩
    · simp [ControllerMouseRowsResizer.applyImpl, hact, hidx, MinLineSize, Lines.setLineSize]
    · exact max_eq_left_iff
    · intro h
      exact max_eq_left (by omega)

/-- C1 at an active column resizer (anchor 20, delta 1, pointer 150: size 131)
and an active row resizer (anchor 10, delta 0, pointer 8: size 5). -/
theorem C1_apply_clamps_size_witness :
    ControllerMouseColumnsResizer.applyImpl (-1) exampleActiveColumns
        = .done { exampleActiveColumns with m_columns := ⟨[(2, 131)]⟩ } ∧
    ControllerMouseRowsResizer.applyImpl (-1) exampleActiveRows
        = .done { exampleActiveRows with m_rows := ⟨[(4, 5)]⟩ } :=
  ⟨((C1_apply_clamps_size (-1)).1 exampleActiveColumns 20 1 150 rfl (by decide) rfl rfl rfl).1,
   ((C1_apply_clamps_size (-1)).2 exampleActiveRows 10 0 8 rfl (by decide) rfl rfl rfl).1⟩

/-! ## Drag anchoring -/

theorem ControllerMouseColumnsResizer.columns_run_append (InvalidIndex : Int)
    (s : ControllerMouseColumnsResizer) (cs ds : List HostCall) :
    run InvalidIndex s (cs ++ ds)
      = (run InvalidIndex s cs).andThen (fun s1 => run InvalidIndex s1 ds) := by
  induction cs generalizing s with
  | nil => rfl
  | cons c cs ih =>
    simp only [List.cons_append, run]
    cases step InvalidIndex s c with
    | done s1 => simpa [Outcome.andThen] using ih s1
    | aborted why s1 => rfl

/-- Pointer moves always return and leave the anchor, the delta, the line index,
the line collection and the `active` flag as they were. -/
theorem ControllerMouseColumnsResizer.columns_run_moves (InvalidIndex : Int) (moves : List HostCall)
    (hmoves : ∀ c ∈ moves, c.isMove = true) (s : ControllerMouseColumnsResizer) :
    ∃ s1, run InvalidIndex s moves = .done s1 ∧ s1.m_delta = s.m_delta ∧
      s1.m_position = s.m_position ∧ s1.m_columnIndex = s.m_columnIndex ∧
      s1.m_columns = s.m_columns ∧ s1.base.active = s.base.active := by
  induction moves generalizing s with
  | nil => exact ⟨s, rfl, rfl, rfl, rfl, rfl, rfl⟩
  | cons c cs ih =>
    have hc := hmoves c (List.mem_cons_self _ _)
    have hcs : ∀ d ∈ cs, d.isMove = true := fun d hd => hmoves d (List.mem_cons_of_mem _ hd)
    cases c with
    | mouseMove event =>
      obtain ⟨s1, h1, h2, h3, h4, h5, h6⟩ := ih hcs (processMouseMove s event).2
      refine ⟨s1, by simpa [run, step, Outcome.andThen] using h1, ?_, ?_, ?_, ?_, ?_⟩
      · rw [h2]; unfold processMouseMove; split <;> rfl
      · rw [h3]; unfold processMouseMove; split <;> rfl
      · rw [h4]; unfold processMouseMove; split <;> rfl
      · rw [h5]; unfold processMouseMove; split <;> rfl
      · rw [h6]; unfold processMouseMove; split <;> rfl
    | pointerAt p =>
      obtain ⟨s1, h1, h2, h3, h4, h5, h6⟩ := ih hcs { s with base := s.base.pointerAt p }
      exact ⟨s1, by simpa [run, step, Outcome.andThen] using h1, h2, h3, h4, h5, h6⟩
    | accept _ => simp [HostCall.isMove] at hc
    | activate _ => simp [HostCall.isMove] at hc
    | deactivate => simp [HostCall.isMove] at hc
    | startCapturing => simp [HostCall.isMove] at hc
    | stopCapturing => simp [HostCall.isMove] at hc
    | apply => simp [HostCall.isMove] at hc

/-- The state after `acceptImpl`: only `m_delta` is written. -/
theorem ControllerMouseColumnsResizer.columns_acceptImpl_state (s : ControllerMouseColumnsResizer)
    (info : ActivationInfo) :
    (acceptImpl s info).2
      = { s with m_delta := info.cache.cacheView.rect.right - info.context.point.x } := by
  simp only [acceptImpl]
  split <;> rfl

/-- Drag anchoring for the column resizer. -/
theorem ControllerMouseColumnsResizer.columns_drag_anchoring (InvalidIndex : Int)
    (s : ControllerMouseColumnsResizer) (info0 info1 : ActivationInfo)
    (moves : List HostCall) (p1 : QPoint)
    (hidle : s.base.active = false) (hband : s.m_rubberBand = none)
    (hidx : info1.item.column ≠ InvalidIndex)
    (hmoves : ∀ c ∈ moves, c.isMove = true) :
    ∃ s1, run InvalidIndex s
          ([.accept info0, .activate info1, .startCapturing] ++ moves ++ [.pointerAt p1, .apply])
        = .done s1 ∧
      s1.m_columns.setLineSizeCalls = s.m_columns.setLineSizeCalls ++
        [(info1.item.column,
          max 5 (p1.x - info1.cache.itemRect.topLeft.x
            + (info0.cache.cacheView.rect.right - info0.context.point.x)))] := by
  rw [columns_run_append, columns_run_append]
  have h3 : ∃ s3, run InvalidIndex s [.accept info0, .activate info1, .startCapturing] = .done s3 ∧
      s3.m_delta = info0.cache.cacheView.rect.right - info0.context.point.x ∧
      s3.m_position = info1.cache.itemRect.topLeft.x ∧
      s3.m_columnIndex = info1.item.column ∧ s3.m_columns = s.m_columns ∧
      s3.base.active = true := by
    simp only [run, step, columns_acceptImpl_state, activateImpl, ControllerMouseCaptured.activateImpl,
      hidle, Bool.false_eq_true, if_false, Outcome.andThen, startCapturingImpl, hband,
      Option.isSome_none]
    exact ⟨_, rfl, rfl, rfl, rfl, rfl, rfl⟩
  obtain ⟨s3, hr3, hd3, hp3, hi3, hc3, ha3⟩ := h3
  obtain ⟨s4, hr4, hd4, hp4, hi4, hc4, ha4⟩ := columns_run_moves InvalidIndex moves hmoves s3
  rw [hr3]
  simp only [Outcome.andThen, hr4, run, step, applyImpl, ControllerMouseCaptured.isActive,
    ControllerMouseCaptured.pointerAt, ha4, ha3, hi4, hi3, hidx, Bool.not_true,
    Bool.false_eq_true, if_false]
  refine ⟨_, rfl, ?_⟩
  simp [Lines.setLineSize, hc4, hc3, hd4, hd3, hp4, hp3, MinLineSize, ActivationState.point]

theorem ControllerMouseRowsResizer.rows_run_append (InvalidIndex : Int)
    (s : ControllerMouseRowsResizer) (cs ds : List HostCall) :
    run InvalidIndex s (cs ++ ds)
      = (run InvalidIndex s cs).andThen (fun s1 => run InvalidIndex s1 ds) := by
  induction cs generalizing s with
  | nil => rfl
  | cons c cs ih =>
    simp only [List.cons_append, run]
    cases step InvalidIndex s c with
    | done s1 => simpa [Outcome.andThen] using ih s1
    | aborted why s1 => rfl

/-- Pointer moves always return and leave the anchor, the delta, the line index,
the line collection and the `active` flag as they were. -/
theorem ControllerMouseRowsResizer.rows_run_moves (InvalidIndex : Int) (moves : List HostCall)
    (hmoves : ∀ c ∈ moves, c.isMove = true) (s : ControllerMouseRowsResizer) :
    ∃ s1, run InvalidIndex s moves = .done s1 ∧ s1.m_delta = s.m_delta ∧
      s1.m_position = s.m_position ∧ s1.m_rowIndex = s.m_rowIndex ∧
      s1.m_rows = s.m_rows ∧ s1.base.active = s.base.active := by
  induction moves generalizing s with
  | nil => exact ⟨s, rfl, rfl, rfl, rfl, rfl, rfl⟩
  | cons c cs ih =>
    have hc := hmoves c (List.mem_cons_self _ _)
    have hcs : ∀ d ∈ cs, d.isMove = true := fun d hd => hmoves d (List.mem_cons_of_mem _ hd)
    cases c with
    | mouseMove event =>
      obtain ⟨s1, h1, h2, h3, h4, h5, h6⟩ := ih hcs (processMouseMove s event).2
      refine ⟨s1, by simpa [run, step, Outcome.andThen] using h1, ?_, ?_, ?_, ?_, ?_⟩
      · rw [h2]; unfold processMouseMove; split <;> rfl
      · rw [h3]; unfold processMouseMove; split <;> rfl
      · rw [h4]; unfold processMouseMove; split <;> rfl
      · rw [h5]; unfold processMouseMove; split <;> rfl
      · rw [h6]; unfold processMouseMove; split <;> rfl
    | pointerAt p =>
      obtain ⟨s1, h1, h2, h3, h4, h5, h6⟩ := ih hcs { s with base := s.base.pointerAt p }
      exact ⟨s1, by simpa [run, step, Outcome.andThen] using h1, h2, h3, h4, h5, h6⟩
    | accept _ => simp [HostCall.isMove] at hc
    | activate _ => simp [HostCall.isMove] at hc
    | deactivate => simp [HostCall.isMove] at hc
    | startCapturing => simp [HostCall.isMove] at hc
    | stopCapturing => simp [HostCall.isMove] at hc
    | apply => simp [HostCall.isMove] at hc

/-- The state after `acceptImpl`: only `m_delta` is written. -/
theorem ControllerMouseRowsResizer.rows_acceptImpl_state (s : ControllerMouseRowsResizer)
    (info : ActivationInfo) :
    (acceptImpl s info).2
      = { s with m_delta := info.cache.cacheView.rect.bottom - info.context.point.y } := by
  simp only [acceptImpl]
  split <;> rfl

/-- Drag anchoring for the row resizer. -/
theorem ControllerMouseRowsResizer.rows_drag_anchoring (InvalidIndex : Int)
    (s : ControllerMouseRowsResizer) (info0 info1 : ActivationInfo)
    (moves : List HostCall) (p1 : QPoint)
    (hidle : s.base.active = false) (hband : s.m_rubberBand = none)
    (hidx : info1.item.row ≠ InvalidIndex)
    (hmoves : ∀ c ∈ moves, c.isMove = true) :
    ∃ s1, run InvalidIndex s
          ([.accept info0, .activate info1, .startCapturing] ++ moves ++ [.pointerAt p1, .apply])
        = .done s1 ∧
      s1.m_rows.setLineSizeCalls = s.m_rows.setLineSizeCalls ++
        [(info1.item.row,
          max 5 (p1.y - info1.cache.itemRect.topLeft.y
            + (info0.cache.cacheView.rect.bottom - info0.context.point.y)))] := by
  rw [rows_run_append, rows_run_append]
  have h3 : ∃ s3, run InvalidIndex s [.accept info0, .activate info1, .startCapturing] = .done s3 ∧
      s3.m_delta = info0.cache.cacheView.rect.bottom - info0.context.point.y ∧
      s3.m_position = info1.cache.itemRect.topLeft.y ∧
      s3.m_rowIndex = info1.item.row ∧ s3.m_rows = s.m_rows ∧
      s3.base.active = true := by
    simp only [run, step, rows_acceptImpl_state, activateImpl, ControllerMouseCaptured.activateImpl,
      hidle, Bool.false_eq_true, if_false, Outcome.andThen, startCapturingImpl, hband,
      Option.isSome_none]
    exact ⟨_, rfl, rfl, rfl, rfl, rfl, rfl⟩
  obtain ⟨s3, hr3, hd3, hp3, hi3, hc3, ha3⟩ := h3
  obtain ⟨s4, hr4, hd4, hp4, hi4, hc4, ha4⟩ := rows_run_moves InvalidIndex moves hmoves s3
  rw [hr3]
  simp only [Outcome.andThen, hr4, run, step, applyImpl, ControllerMouseCaptured.isActive,
    ControllerMouseCaptured.pointerAt, ha4, ha3, hi4, hi3, hidx, Bool.not_true,
    Bool.false_eq_true, if_false]
  refine ⟨_, rfl, ?_⟩
  simp [Lines.setLineSize, hc4, hc3, hd4, hd3, hp4, hp3, MinLineSize, ActivationState.point]

/-- C2. Drag anchoring, end to end, for both axes.  On an idle controller
without drag-feedback visual, the run `accept` (trailing edge `e`, pointer `p0`),
`activate` (item left/top edge `e0`, valid line index), `startCapturing`, any
finite sequence of pointer moves, release at `p1`, `apply` returns normally and
adds exactly the call `setLineSize(index, max 5 (p1 - e0 + (e - p0)))` to the
line collection, whatever the intermediate moves are. -/
theorem C2_drag_anchoring (InvalidIndex : Int) :
    (∀ (s : ControllerMouseColumnsResizer) (info0 info1 : ActivationInfo)
        (moves : List HostCall) (p1 : QPoint) (e p0 e0 : Int),
      s.base.active = false → s.m_rubberBand = none →
      info0.cache.cacheView.rect.right = e → info0.context.point.x = p0 →
      info1.cache.itemRect.topLeft.x = e0 → info1.item.column ≠ InvalidIndex →
      (∀ c ∈ moves, c.isMove = true) →
      ∃ s1, ControllerMouseColumnsResizer.run InvalidIndex s
            ([.accept info0, .activate info1, .startCapturing] ++ moves
              ++ [.pointerAt p1, .apply]) = .done s1 ∧
        s1.m_columns.setLineSizeCalls = s.m_columns.setLineSizeCalls ++
          [(info1.item.column, max 5 (p1.x - e0 + (e - p0)))]) ∧
    (∀ (s : ControllerMouseRowsResizer) (info0 info1 : ActivationInfo)
        (moves : List HostCall) (p1 : QPoint) (e p0 e0 : Int),
      s.base.active = false → s.m_rubberBand = none →
      info0.cache.cacheView.rect.bottom = e → info0.context.point.y = p0 →
      info1.cache.itemRect.topLeft.y = e0 → info1.item.row ≠ InvalidIndex →
      (∀ c ∈ moves, c.isMove = true) →
      ∃ s1, ControllerMouseRowsResizer.run InvalidIndex s
            ([.accept info0, .activate info1, .startCapturing] ++ moves
              ++ [.pointerAt p1, .apply]) = .done s1 ∧
        s1.m_rows.setLineSizeCalls = s.m_rows.setLineSizeCalls ++
          [(info1.item.row, max 5 (p1.y - e0 + (e - p0)))]) := by
  constructor
  · intro s info0 info1 moves p1 e p0 e0 hidle hband he hp0 he0 hidx hmoves
    subst he hp0 he0
    exact ControllerMouseColumnsResizer.columns_drag_anchoring InvalidIndex s info0 info1 moves p1
      hidle hband hidx hmoves
  · intro s info0 info1 moves p1 e p0 e0 hidle hband he hp0 he0 hidx hmoves
    subst he hp0 he0
    exact ControllerMouseRowsResizer.rows_drag_anchoring InvalidIndex s info0 info1 moves p1
      hidle hband hidx hmoves

/-- C2 at the two scenarios: column edge 100 grabbed at 99, item left 20,
released at 150, with moves in between (size 131); row edge 50 grabbed at 50,
item top 10, released at 8 (size 5). -/
theorem C2_drag_anchoring_witness :
    (∃ s1, ControllerMouseColumnsResizer.run (-1)
          (ControllerMouseColumnsResizer.new (-1) ⟨[]⟩ 0 ⟨exampleWidget, ⟨0, 0⟩⟩)
          ([.accept (exampleInfo ⟨20, 0, 100, 24⟩ ⟨20, 0, 100, 24⟩ ⟨99, 12⟩ ⟨0, 2⟩),
            .activate (exampleInfo ⟨20, 0, 100, 24⟩ ⟨20, 0, 100, 24⟩ ⟨99, 12⟩ ⟨0, 2⟩),
            .startCapturing]
            ++ [.pointerAt ⟨120, 12⟩, .mouseMove ⟨120, 12⟩, .mouseMove ⟨700, -3⟩]
            ++ [.pointerAt ⟨150, 12⟩, .apply]) = .done s1 ∧
        s1.m_columns.setLineSizeCalls = [] ++ [(2, max 5 (150 - 20 + (100 - 99)))]) ∧
    (∃ s1, ControllerMouseRowsResizer.run (-1)
          (ControllerMouseRowsResizer.new (-1) ⟨[]⟩ 0 ⟨exampleWidget, ⟨0, 0⟩⟩)
          ([.accept (exampleInfo ⟨0, 10, 80, 50⟩ ⟨0, 10, 80, 50⟩ ⟨40, 50⟩ ⟨4, 0⟩),
            .activate (exampleInfo ⟨0, 10, 80, 50⟩ ⟨0, 10, 80, 50⟩ ⟨40, 50⟩ ⟨4, 0⟩),
            .startCapturing]
            ++ []
            ++ [.pointerAt ⟨40, 8⟩, .apply]) = .done s1 ∧
        s1.m_rows.setLineSizeCalls = [] ++ [(4, max 5 (8 - 10 + (50 - 50)))]) ∧
    max 5 (150 - 20 + (100 - 99)) = (131 : Int) ∧ max 5 (8 - 10 + (50 - 50)) = (5 : Int) :=
  ⟨(C2_drag_anchoring (-1)).1 _ _ _ _ ⟨150, 12⟩ 100 99 20 rfl rfl rfl rfl rfl (by decide)
      (by decide),
   (C2_drag_anchoring (-1)).2 _ _ _ _ ⟨40, 8⟩ 50 50 10 rfl rfl rfl rfl rfl (by decide)
      (by decide),
   by decide, by decide⟩

/-! ## Acceptance tolerance -/

/-- The result of the column `acceptImpl` in terms of its input. -/
theorem ControllerMouseColumnsResizer.columns_acceptImpl_iff (s : ControllerMouseColumnsResizer)
    (info : ActivationInfo) :
    (acceptImpl s info).1 = true
      ↔ |info.cache.cacheView.rect.right - info.context.point.x| ≤ 3 := by
  simp only [acceptImpl, ToleranseZone]
  split <;> simp_all

/-- The result of the row `acceptImpl` in terms of its input. -/
theorem ControllerMouseRowsResizer.rows_acceptImpl_iff (s : ControllerMouseRowsResizer)
    (info : ActivationInfo) :
    (acceptImpl s info).1 = true
      ↔ |info.cache.cacheView.rect.bottom - info.context.point.y| < 3 := by
  simp only [acceptImpl, ToleranseZone]
  split <;> simp_all

/-- C3. Column acceptance tolerance: for every controller state, cache-view
rectangle and pointer position, `acceptImpl` of the column resizer returns true
if and only if `|rect.right - pointer.x| ≤ 3`; a pointer exactly 3 units from
the trailing edge, on either side, is accepted, one 4 units away is rejected,
and the pointer's y coordinate has no influence on the result. -/
theorem C3_column_accept_tolerance :
    (∀ (s : ControllerMouseColumnsResizer) (info : ActivationInfo),
      (ControllerMouseColumnsResizer.acceptImpl s info).1 = true
        ↔ |info.cache.cacheView.rect.right - info.context.point.x| ≤ 3) ∧
    (∀ (s : ControllerMouseColumnsResizer) (info : ActivationInfo),
      (info.context.point.x = info.cache.cacheView.rect.right - 3
        ∨ info.context.point.x = info.cache.cacheView.rect.right + 3) →
      (ControllerMouseColumnsResizer.acceptImpl s info).1 = true) ∧
    (∀ (s : ControllerMouseColumnsResizer) (info : ActivationInfo),
      (info.context.point.x = info.cache.cacheView.rect.right - 4
        ∨ info.context.point.x = info.cache.cacheView.rect.right + 4) →
      (ControllerMouseColumnsResizer.acceptImpl s info).1 = false) ∧
    (∀ (s : ControllerMouseColumnsResizer) (info : ActivationInfo) (y : Int),
      (ControllerMouseColumnsResizer.acceptImpl s
          { info with context := { info.context with point := ⟨info.context.point.x, y⟩ } }).1
        = (ControllerMouseColumnsResizer.acceptImpl s info).1) := by
  have key := ControllerMouseColumnsResizer.columns_acceptImpl_iff
  refine ⟨key, ?_, ?_, ?_⟩
  · intro s info h
    rw [key, abs_le]
    omega
  · intro s info h
    rw [← Bool.not_eq_true, key, abs_le]
    omega
  · intro s info y
    rw [Bool.eq_iff_iff, key, key]

/-- C3 at a trailing edge at x = 100: pointers at 97 and 103 are accepted,
pointers at 96 and 104 are rejected. -/
theorem C3_column_accept_tolerance_witness :
    (ControllerMouseColumnsResizer.acceptImpl exampleActiveColumns
        (exampleInfo ⟨20, 0, 100, 24⟩ ⟨20, 0, 100, 24⟩ ⟨97, 12⟩ ⟨0, 2⟩)).1 = true ∧
    (ControllerMouseColumnsResizer.acceptImpl exampleActiveColumns
        (exampleInfo ⟨20, 0, 100, 24⟩ ⟨20, 0, 100, 24⟩ ⟨103, 400⟩ ⟨0, 2⟩)).1 = true ∧
    (ControllerMouseColumnsResizer.acceptImpl exampleActiveColumns
        (exampleInfo ⟨20, 0, 100, 24⟩ ⟨20, 0, 100, 24⟩ ⟨96, 12⟩ ⟨0, 2⟩)).1 = false ∧
    (ControllerMouseColumnsResizer.acceptImpl exampleActiveColumns
        (exampleInfo ⟨20, 0, 100, 24⟩ ⟨20, 0, 100, 24⟩ ⟨104, 12⟩ ⟨0, 2⟩)).1 = false :=
  ⟨C3_column_accept_tolerance.2.1 _ _ (Or.inl (by decide)),
   C3_column_accept_tolerance.2.1 _ _ (Or.inr (by decide)),
   C3_column_accept_tolerance.2.2.1 _ _ (Or.inl (by decide)),
   C3_column_accept_tolerance.2.2.1 _ _ (Or.inr (by decide))⟩

/-- C4. Row acceptance tolerance: for every controller state, cache-view
rectangle and pointer position, `acceptImpl` of the row resizer returns true if
and only if `|rect.bottom - pointer.y| < 3`; a pointer exactly 3 units from the
trailing edge is rejected, while the column resizer accepts the transposed
input; the two variants give different answers on an input and its transpose
exactly when the distance is 3. -/
theorem C4_row_accept_tolerance :
    (∀ (s : ControllerMouseRowsResizer) (info : ActivationInfo),
      (ControllerMouseRowsResizer.acceptImpl s info).1 = true
        ↔ |info.cache.cacheView.rect.bottom - info.context.point.y| < 3) ∧
    (∀ (r : ControllerMouseRowsResizer) (c : ControllerMouseColumnsResizer)
        (info transposed : ActivationInfo),
      transposed.cache.cacheView.rect.right = info.cache.cacheView.rect.bottom →
      transposed.context.point.x = info.context.point.y →
      |info.cache.cacheView.rect.bottom - info.context.point.y| = 3 →
      (ControllerMouseRowsResizer.acceptImpl r info).1 = false ∧
        (ControllerMouseColumnsResizer.acceptImpl c transposed).1 = true) ∧
    (∀ (r : ControllerMouseRowsResizer) (c : ControllerMouseColumnsResizer)
        (info transposed : ActivationInfo),
      transposed.cache.cacheView.rect.right = info.cache.cacheView.rect.bottom →
      transposed.context.point.x = info.context.point.y →
      ((ControllerMouseRowsResizer.acceptImpl r info).1
          ≠ (ControllerMouseColumnsResizer.acceptImpl c transposed).1
        ↔ |info.cache.cacheView.rect.bottom - info.context.point.y| = 3)) := by
  have krow := ControllerMouseRowsResizer.rows_acceptImpl_iff
  have kcol := ControllerMouseColumnsResizer.columns_acceptImpl_iff
  refine ⟨krow, ?_, ?_⟩
  · intro r c info transposed hr hp h3
    constructor
    · rw [← Bool.not_eq_true, krow, h3]
      decide
    · rw [kcol, hr, hp, h3]
  · intro r c info transposed hr hp
    rw [Ne, Bool.eq_iff_iff, krow, kcol, hr, hp]
    have := abs_nonneg (info.cache.cacheView.rect.bottom - info.context.point.y)
    omega

/-- C4 at a trailing edge at 50 and a pointer at 47: the row resizer rejects, the
column resizer accepts the transposed input. -/
theorem C4_row_accept_tolerance_witness :
    (ControllerMouseRowsResizer.acceptImpl exampleActiveRows
        (exampleInfo ⟨0, 10, 80, 50⟩ ⟨0, 10, 80, 50⟩ ⟨40, 47⟩ ⟨4, 0⟩)).1 = false ∧
    (ControllerMouseColumnsResizer.acceptImpl exampleActiveColumns
        (exampleInfo ⟨10, 0, 50, 80⟩ ⟨10, 0, 50, 80⟩ ⟨47, 40⟩ ⟨0, 4⟩)).1 = true :=
  C4_row_accept_tolerance.2.1 exampleActiveRows exampleActiveColumns
    (exampleInfo ⟨0, 10, 80, 50⟩ ⟨0, 10, 80, 50⟩ ⟨40, 47⟩ ⟨4, 0⟩)
    (exampleInfo ⟨10, 0, 50, 80⟩ ⟨10, 0, 50, 80⟩ ⟨47, 40⟩ ⟨0, 4⟩) rfl rfl (by decide)

/-! ## Precondition of `applyImpl` -/

/-- C7. For both resizers, `applyImpl` stops at a failed assertion if and only if
the controller is not active or its line index is `InvalidIndex`; a call that
stops there has not called `setLineSize`: the controller, its line collection
included, is as it was before the call; and a call that does not stop there
returns normally. -/
theorem C7_apply_precondition (InvalidIndex : Int) :
    (∀ s : ControllerMouseColumnsResizer,
      ((ControllerMouseColumnsResizer.applyImpl InvalidIndex s).isViolation = true
        ↔ (s.base.isActive = false ∨ s.m_columnIndex = InvalidIndex)) ∧
      ((ControllerMouseColumnsResizer.applyImpl InvalidIndex s).isViolation = true →
        ControllerMouseColumnsResizer.applyImpl InvalidIndex s = .aborted .assertion s ∧
        (ControllerMouseColumnsResizer.applyImpl InvalidIndex s).state.m_columns = s.m_columns) ∧
      ((ControllerMouseColumnsResizer.applyImpl InvalidIndex s).isViolation = false →
        ∃ s1, ControllerMouseColumnsResizer.applyImpl InvalidIndex s = .done s1)) ∧
    (∀ s : ControllerMouseRowsResizer,
      ((ControllerMouseRowsResizer.applyImpl InvalidIndex s).isViolation = true
        ↔ (s.base.isActive = false ∨ s.m_rowIndex = InvalidIndex)) ∧
      ((ControllerMouseRowsResizer.applyImpl InvalidIndex s).isViolation = true →
        ControllerMouseRowsResizer.applyImpl InvalidIndex s = .aborted .assertion s ∧
        (ControllerMouseRowsResizer.applyImpl InvalidIndex s).state.m_rows = s.m_rows) ∧
      ((ControllerMouseRowsResizer.applyImpl InvalidIndex s).isViolation = false →
        ∃ s1, ControllerMouseRowsResizer.applyImpl InvalidIndex s = .done s1)) := by
  constructor
  · intro s
    unfold ControllerMouseColumnsResizer.applyImpl
    cases hact : s.base.isActive <;> by_cases hidx : s.m_columnIndex = InvalidIndex <;>
      simp [hact, hidx, Outcome.isViolation, Outcome.state]
  · intro s
    unfold ControllerMouseRowsResizer.applyImpl
    cases hact : s.base.isActive <;> by_cases hidx : s.m_rowIndex = InvalidIndex <;>
      simp [hact, hidx, Outcome.isViolation, Outcome.state]

/-- C7 at an active column resizer whose line index is the invalid one, and at
a row resizer that is not active: the call stops at the assertion and the
controller is as before. -/
theorem C7_apply_precondition_witness :
    (ControllerMouseColumnsResizer.applyImpl 2 exampleActiveColumns
        = .aborted .assertion exampleActiveColumns ∧
      (ControllerMouseColumnsResizer.applyImpl 2 exampleActiveColumns).state.m_columns
        = exampleActiveColumns.m_columns) ∧
    (ControllerMouseRowsResizer.applyImpl (-1)
          { exampleActiveRows with base := { exampleActiveRows.base with active := false } }
        = .aborted .assertion
          { exampleActiveRows with base := { exampleActiveRows.base with active := false } } ∧
      (ControllerMouseRowsResizer.applyImpl (-1)
          { exampleActiveRows with base := { exampleActiveRows.base with active := false } }
        ).state.m_rows = exampleActiveRows.m_rows) :=
  ⟨((C7_apply_precondition 2).1 exampleActiveColumns).2.1 (by decide),
   ((C7_apply_precondition (-1)).2
      { exampleActiveRows with base := { exampleActiveRows.base with active := false } }).2.1
      (by decide)⟩

/-! ## The tooltip flag of a cache entry -/

theorem CacheView.setShowTooltip_m_view (e : CacheView) (t : Bool) :
    (e.setShowTooltip t).m_view = e.m_view := by
  cases e; rfl

theorem CacheView.setShowTooltip_m_layout (e : CacheView) (t : Bool) :
    (e.setShowTooltip t).m_layout = e.m_layout := by
  cases e; rfl

theorem CacheView.setShowTooltip_m_showTooltip (e : CacheView) (t : Bool) :
    (e.setShowTooltip t).m_showTooltip = t := by
  cases e; rfl

theorem CacheView.setShowTooltip_setShowTooltip (e : CacheView) (t u : Bool) :
    (e.setShowTooltip t).setShowTooltip u = e.setShowTooltip u := by
  cases e; rfl

/-- The outcome of `draw` on an entry with non-null view and layout. -/
theorem CacheView.draw_eq (env : Collaborators) (e : CacheView) (painter : QPainter)
    (ctx : GuiContext) (item : ItemID) (itemRect : QRect) (visibleRect : Option QRect)
    (v l : Nat) (hv : e.m_view = some v) (hl : e.m_layout = some l) :
    draw env e painter ctx item itemRect visibleRect
      = .done (e.setShowTooltip
          (((env.view v).draw painter ctx
              ⟨item, itemRect, e.setShowTooltip false, visibleRect⟩).getD false)) := by
  simp only [draw, setShowTooltip_m_view, hv]
  cases hw : (env.view v).draw painter ctx ⟨item, itemRect, e.setShowTooltip false, visibleRect⟩ with
  | none =>
    simp [setShowTooltip_m_layout, hl]
  | some w =>
    simp [setShowTooltip_m_layout, setShowTooltip_setShowTooltip, hl]

/-- C6. `draw` resets the tooltip flag before delegating.  For every entry with
non-null view and layout, whatever its flag was: the view is handed the entry
with the flag already false; `draw` returns normally and changes nothing but
the flag, which afterwards is what the view wrote through the out-parameter,
and false if it wrote nothing.  `tooltipText` after that draw gives the view's
own `tooltipText` answer if the view wrote true, and otherwise gives false and
leaves the output string alone, whatever the views would answer. -/
theorem C6_draw_resets_then_delegates (env : Collaborators) (e : CacheView)
    (painter : QPainter) (ctx : GuiContext) (item : ItemID) (itemRect : QRect)
    (visibleRect : Option QRect) (v l : Nat)
    (hv : e.m_view = some v) (hl : e.m_layout = some l) :
    ∃ (handed drawn : CacheView) (written : Option Bool),
      handed = e.setShowTooltip false ∧ handed.m_showTooltip = false ∧
      written = (env.view v).draw painter ctx ⟨item, itemRect, handed, visibleRect⟩ ∧
      CacheView.draw env e painter ctx item itemRect visibleRect = .done drawn ∧
      drawn = e.setShowTooltip (written.getD false) ∧
      drawn.m_showTooltip = written.getD false ∧
      (written = none → drawn.m_showTooltip = false) ∧
      (∀ w, written = some w → drawn.m_showTooltip = w) ∧
      (written = some true → ∀ (item2 : ItemID) (text : String),
        CacheView.tooltipText env drawn item2 text
          = .done ((env.view v).tooltipText item2 text)) ∧
      (written ≠ some true → ∀ (env2 : Collaborators) (item2 : ItemID) (text : String),
        CacheView.tooltipText env2 drawn item2 text = .done (false, text)) := by
  refine ⟨e.setShowTooltip false, _, _, rfl, CacheView.setShowTooltip_m_showTooltip _ _, rfl,
    CacheView.draw_eq env e painter ctx item itemRect visibleRect v l hv hl, rfl,
    CacheView.setShowTooltip_m_showTooltip _ _, ?_, ?_, ?_, ?_⟩
  · intro h
    rw [CacheView.setShowTooltip_m_showTooltip, h]
    rfl
  · intro w h
    rw [CacheView.setShowTooltip_m_showTooltip, h]
    rfl
  · intro h item2 text
    simp [CacheView.tooltipText, CacheView.setShowTooltip_m_showTooltip,
      CacheView.setShowTooltip_m_view, h, hv]
  · intro h env2 item2 text
    have hf : (Option.getD ((env.view v).draw painter ctx
        ⟨item, itemRect, e.setShowTooltip false, visibleRect⟩) false) = false := by
      cases hw : (env.view v).draw painter ctx
          ⟨item, itemRect, e.setShowTooltip false, visibleRect⟩ with
      | none => rfl
      | some w =>
        cases w with
        | false => rfl
        | true => exact absurd hw h
    simp [CacheView.tooltipText, CacheView.setShowTooltip_m_showTooltip, hf]

/-- C6 at an entry whose flag is set, drawn by a view (address 3) that writes
nothing: the flag is false afterwards and `tooltipText` answers no tooltip; and
at the same entry drawn by a view (address 2) that writes true: `tooltipText`
gives that view's answer. -/
theorem C6_draw_resets_then_delegates_witness :
    (∃ (handed drawn : CacheView) (written : Option Bool),
      handed = (CacheView.mk (some 1) (some 3) ⟨0, 0, 9, 9⟩ true []).setShowTooltip false ∧
      handed.m_showTooltip = false ∧
      written = (exampleCollaborators.view 3).draw ⟨0⟩ ⟨exampleWidget, ⟨0, 0⟩⟩
        ⟨⟨0, 0⟩, ⟨0, 0, 9, 9⟩, handed, none⟩ ∧
      CacheView.draw exampleCollaborators (CacheView.mk (some 1) (some 3) ⟨0, 0, 9, 9⟩ true [])
        ⟨0⟩ ⟨exampleWidget, ⟨0, 0⟩⟩ ⟨0, 0⟩ ⟨0, 0, 9, 9⟩ none = .done drawn ∧
      drawn = (CacheView.mk (some 1) (some 3) ⟨0, 0, 9, 9⟩ true []).setShowTooltip
        (written.getD false) ∧
      drawn.m_showTooltip = written.getD false ∧
      (written = none → drawn.m_showTooltip = false) ∧
      (∀ w, written = some w → drawn.m_showTooltip = w) ∧
      (written = some true → ∀ (item2 : ItemID) (text : String),
        CacheView.tooltipText exampleCollaborators drawn item2 text
          = .done ((exampleCollaborators.view 3).tooltipText item2 text)) ∧
      (written ≠ some true → ∀ (env2 : Collaborators) (item2 : ItemID) (text : String),
        CacheView.tooltipText env2 drawn item2 text = .done (false, text))) ∧
    CacheView.draw exampleCollaborators (CacheView.mk (some 1) (some 3) ⟨0, 0, 9, 9⟩ true [])
        ⟨0⟩ ⟨exampleWidget, ⟨0, 0⟩⟩ ⟨0, 0⟩ ⟨0, 0, 9, 9⟩ none
      = .done (CacheView.mk (some 1) (some 3) ⟨0, 0, 9, 9⟩ false []) ∧
    CacheView.tooltipText exampleCollaborators
        (CacheView.mk (some 1) (some 3) ⟨0, 0, 9, 9⟩ false []) ⟨0, 0⟩ "old"
      = .done (false, "old") ∧
    CacheView.draw exampleCollaborators (CacheView.mk (some 1) (some 2) ⟨0, 0, 9, 9⟩ false [])
        ⟨0⟩ ⟨exampleWidget, ⟨0, 0⟩⟩ ⟨0, 0⟩ ⟨0, 0, 9, 9⟩ none
      = .done (CacheView.mk (some 1) (some 2) ⟨0, 0, 9, 9⟩ true []) ∧
    CacheView.tooltipText exampleCollaborators
        (CacheView.mk (some 1) (some 2) ⟨0, 0, 9, 9⟩ true []) ⟨0, 0⟩ "old"
      = .done (true, "tip") :=
  ⟨C6_draw_resets_then_delegates exampleCollaborators
    (CacheView.mk (some 1) (some 3) ⟨0, 0, 9, 9⟩ true []) ⟨0⟩ ⟨exampleWidget, ⟨0, 0⟩⟩ ⟨0, 0⟩
    ⟨0, 0, 9, 9⟩ none 3 1 rfl rfl, rfl, rfl, rfl, rfl⟩

theorem CacheView.entry_run_append (env : Collaborators) (e : CacheView) (cs ds : List EntryCall) :
    run env e (cs ++ ds) = (run env e cs).andThen (fun e1 => run env e1 ds) := by
  induction cs generalizing e with
  | nil => rfl
  | cons c cs ih =>
    simp only [List.cons_append, run]
    cases step env e c with
    | done e1 => simpa [Outcome.andThen] using ih e1
    | aborted why e1 => rfl

/-- A call that is not a `draw` leaves the entry as it is. -/
theorem CacheView.step_not_draw (env : Collaborators) (e e1 : CacheView) (c : EntryCall)
    (hc : c.isDraw = false) (h : step env e c = .done e1) : e1 = e := by
  cases c with
  | draw painter ctx item itemRect visibleRect => simp [EntryCall.isDraw] at hc
  | cleanupDraw painter ctx item itemRect visibleRect =>
    simp only [step, cleanupDraw] at h
    split at h
    · cases h
    · cases h; rfl
  | tooltipText item text =>
    simp only [step] at h
    split at h
    · cases h; rfl
    · cases h

/-- History of an entry built by the constructor: the entry differs from the
constructed one in the flag only, and if the flag is set then the history has a
most recent `draw`, on which the view wrote true. -/
theorem CacheView.run_new (env : Collaborators) (l v : Nat) (rect : QRect)
    (calls : List EntryCall) :
    ∀ e, run env (mk (some l) (some v) rect false []) calls = .done e →
      (∃ f, e = mk (some l) (some v) rect f []) ∧
      (e.m_showTooltip = true →
        ∃ before painter ctx item itemRect visibleRect after,
          calls = before ++ [.draw painter ctx item itemRect visibleRect] ++ after ∧
          (∀ c ∈ after, c.isDraw = false) ∧
          (env.view v).draw painter ctx
            ⟨item, itemRect, mk (some l) (some v) rect false [], visibleRect⟩ = some true) := by
  induction calls using List.reverseRecOn with
  | nil =>
    intro e h
    simp only [run, Outcome.done.injEq] at h
    subst h
    exact ⟨⟨false, rfl⟩, fun h => by simp [m_showTooltip] at h⟩
  | append_singleton cs c ih =>
    intro e h
    rw [entry_run_append] at h
    cases hcs : run env (mk (some l) (some v) rect false []) cs with
    | aborted why e1 => simp [hcs, Outcome.andThen] at h
    | done e1 =>
      obtain ⟨⟨f, hf⟩, hflag⟩ := ih e1 hcs
      simp only [hcs, Outcome.andThen, run] at h
      cases hstep : step env e1 c with
      | aborted why e2 => simp [hstep] at h
      | done e2 =>
        simp only [hstep, Outcome.done.injEq] at h
        subst h
        cases hd : c.isDraw with
        | false =>
          have := step_not_draw env e1 e2 c hd hstep
          subst this
          refine ⟨⟨f, hf⟩, fun ht => ?_⟩
          obtain ⟨before, painter, ctx, item, itemRect, visibleRect, after, hcalls, hafter, hw⟩ :=
            hflag ht
          refine ⟨before, painter, ctx, item, itemRect, visibleRect, after ++ [c], ?_, ?_, hw⟩
          · rw [hcalls]; simp
          · intro d hdmem
            rcases List.mem_append.1 hdmem with hd1 | hd1
            · exact hafter d hd1
            · rw [List.mem_singleton.1 hd1]; exact hd
        | true =>
          cases c with
          | cleanupDraw _ _ _ _ _ => simp [EntryCall.isDraw] at hd
          | tooltipText _ _ => simp [EntryCall.isDraw] at hd
          | draw painter ctx item itemRect visibleRect =>
            subst hf
            have hdraw := draw_eq env (mk (some l) (some v) rect f []) painter ctx item itemRect
              visibleRect v l rfl rfl
            simp only [step, hdraw, Outcome.done.injEq] at hstep
            subst hstep
            refine ⟨⟨_, rfl⟩, fun ht => ?_⟩
            refine ⟨cs, painter, ctx, item, itemRect, visibleRect, [], by simp, by simp, ?_⟩
            simp only [setShowTooltip, m_showTooltip] at ht
            cases hw : (env.view v).draw painter ctx
                ⟨item, itemRect, mk (some l) (some v) rect false [], visibleRect⟩ with
            | none => simp [hw] at ht
            | some w =>
              simp only [hw, Option.getD_some] at ht
              rw [ht]

/-- C5, as stated, fails for copies: an entry that was drawn with a view asking
for a tooltip is copied (or assigned to an entry that was never drawn); no
`draw` has been called on the copy (or on the target), and `tooltipText` on it
returns a tooltip. -/
theorem C5_copy_answers_without_draw :
    CacheView.new (some 1) (some 2) ⟨0, 0, 9, 9⟩ = .done (.mk (some 1) (some 2) ⟨0, 0, 9, 9⟩ false []) ∧
    CacheView.draw exampleCollaborators (.mk (some 1) (some 2) ⟨0, 0, 9, 9⟩ false []) ⟨0⟩
        ⟨exampleWidget, ⟨0, 0⟩⟩ ⟨0, 0⟩ ⟨0, 0, 9, 9⟩ none
      = .done (.mk (some 1) (some 2) ⟨0, 0, 9, 9⟩ true []) ∧
    CacheView.tooltipText exampleCollaborators
        (CacheView.copy (.mk (some 1) (some 2) ⟨0, 0, 9, 9⟩ true [])) ⟨0, 0⟩ ""
      = .done (true, "tip") ∧
    CacheView.new (some 1) (some 3) ⟨5, 5, 7, 7⟩ = .done (.mk (some 1) (some 3) ⟨5, 5, 7, 7⟩ false []) ∧
    CacheView.tooltipText exampleCollaborators
        (CacheView.assign (.mk (some 1) (some 3) ⟨5, 5, 7, 7⟩ false [])
          (.mk (some 1) (some 2) ⟨0, 0, 9, 9⟩ true [])) ⟨0, 0⟩ ""
      = .done (true, "tip") := by
  refine ⟨rfl, rfl, rfl, rfl, rfl⟩

/-- C5, amended.  For an entry built by the constructor from a layout, a view
and a rectangle, after any sequence of `draw`, `cleanupDraw` and `tooltipText`
calls that returned: `tooltipText` returns a tooltip only if the sequence has a
most recent `draw` and the view wrote true through the out-parameter on that
draw; if the sequence has no `draw`, `tooltipText` returns no tooltip and
leaves the output string alone.  A copy-constructed entry and the target of an
assignment carry the flag of their source. -/
theorem C5_tooltip_freshness_constructed (env : Collaborators) (layout view : Option Nat)
    (rect : QRect) (e0 e : CacheView) (calls : List EntryCall)
    (hnew : CacheView.new layout view rect = .done e0)
    (hrun : CacheView.run env e0 calls = .done e) :
    (∀ (item : ItemID) (text : String) (answer : String),
      CacheView.tooltipText env e item text = .done (true, answer) →
      ∃ before painter ctx item1 itemRect visibleRect after v,
        calls = before ++ [.draw painter ctx item1 itemRect visibleRect] ++ after ∧
        (∀ c ∈ after, c.isDraw = false) ∧
        view = some v ∧
        (env.view v).draw painter ctx ⟨item1, itemRect, e0, visibleRect⟩ = some true) ∧
    ((∀ c ∈ calls, c.isDraw = false) →
      ∀ (item : ItemID) (text : String),
        CacheView.tooltipText env e item text = .done (false, text)) ∧
    (∀ target : CacheView,
      (CacheView.copy e).m_showTooltip = e.m_showTooltip ∧
      (CacheView.assign target e).m_showTooltip = e.m_showTooltip) := by
  obtain ⟨l, rfl⟩ : ∃ l, layout = some l := by
    cases layout with
    | none => simp [CacheView.new] at hnew
    | some l => exact ⟨l, rfl⟩
  obtain ⟨v, rfl⟩ : ∃ v, view = some v := by
    cases view with
    | none => simp [CacheView.new] at hnew
    | some v => exact ⟨v, rfl⟩
  simp only [CacheView.new, Option.isNone_some, Bool.false_eq_true, if_false,
    Outcome.done.injEq] at hnew
  subst hnew
  obtain ⟨⟨f, hf⟩, hflag⟩ := CacheView.run_new env l v rect calls e hrun
  refine ⟨?_, ?_, ?_⟩
  · intro item text answer h
    have ht : e.m_showTooltip = true := by
      cases hs : e.m_showTooltip with
      | true => rfl
      | false => simp [CacheView.tooltipText, hs] at h
    obtain ⟨before, painter, ctx, item1, itemRect, visibleRect, after, hcalls, hafter, hw⟩ :=
      hflag ht
    exact ⟨before, painter, ctx, item1, itemRect, visibleRect, after, v, hcalls, hafter, rfl, hw⟩
  · intro hnodraw item text
    have hs : e.m_showTooltip = false := by
      cases hs : e.m_showTooltip with
      | false => rfl
      | true =>
        obtain ⟨before, painter, ctx, item1, itemRect, visibleRect, after, hcalls, _, _⟩ :=
          hflag hs
        have := hnodraw (.draw painter ctx item1 itemRect visibleRect) (by rw [hcalls]; simp)
        simp [EntryCall.isDraw] at this
    simp [CacheView.tooltipText, hs]
  · intro target
    constructor
    · cases e; rfl
    · cases e; cases target; rfl

/-- C5, amended, at an entry built by the constructor and then queried, drawn
and cleaned up once. -/
theorem C5_tooltip_freshness_constructed_witness :
    (∀ (item : ItemID) (text : String) (answer : String),
      CacheView.tooltipText exampleCollaborators (.mk (some 1) (some 2) ⟨0, 0, 9, 9⟩ true [])
          item text = .done (true, answer) →
      ∃ before painter ctx item1 itemRect visibleRect after v,
        [EntryCall.tooltipText ⟨0, 0⟩ "", .draw ⟨0⟩ ⟨exampleWidget, ⟨0, 0⟩⟩ ⟨0, 0⟩ ⟨0, 0, 9, 9⟩ none,
            .cleanupDraw ⟨0⟩ ⟨exampleWidget, ⟨0, 0⟩⟩ ⟨0, 0⟩ ⟨0, 0, 9, 9⟩ none]
          = before ++ [.draw painter ctx item1 itemRect visibleRect] ++ after ∧
        (∀ c ∈ after, c.isDraw = false) ∧
        some 2 = some v ∧
        (exampleCollaborators.view v).draw painter ctx
          ⟨item1, itemRect, .mk (some 1) (some 2) ⟨0, 0, 9, 9⟩ false [], visibleRect⟩ = some true) ∧
    CacheView.tooltipText exampleCollaborators (.mk (some 1) (some 2) ⟨0, 0, 9, 9⟩ true [])
        ⟨0, 0⟩ "" = .done (true, "tip") :=
  ⟨(C5_tooltip_freshness_constructed exampleCollaborators (some 1) (some 2) ⟨0, 0, 9, 9⟩
      (.mk (some 1) (some 2) ⟨0, 0, 9, 9⟩ false []) (.mk (some 1) (some 2) ⟨0, 0, 9, 9⟩ true [])
      [.tooltipText ⟨0, 0⟩ "", .draw ⟨0⟩ ⟨exampleWidget, ⟨0, 0⟩⟩ ⟨0, 0⟩ ⟨0, 0, 9, 9⟩ none,
        .cleanupDraw ⟨0⟩ ⟨exampleWidget, ⟨0, 0⟩⟩ ⟨0, 0⟩ ⟨0, 0, 9, 9⟩ none]
      rfl rfl).1,
   rfl⟩

/-! ## Lifecycle lemmas of the column resizer -/

/-- The outcome of the column `startCapturingImpl` when no visual exists. -/
theorem ControllerMouseColumnsResizer.columns_startCapturingImpl_none (s : ControllerMouseColumnsResizer)
    (h : s.m_rubberBand = none) :
    startCapturingImpl s
      = .done { s with
          base := { s.base with capturing := true }
          m_rubberBand := some
            ⟨⟨s.base.activationState.point.x, s.base.activationState.context.widget.rect.y1,
              s.base.activationState.point.x, s.base.activationState.context.widget.rect.y2⟩,
             true⟩ } := by
  simp [startCapturingImpl, ControllerMouseCaptured.startCapturingImpl, h, QRect.setLeft,
    QRect.setRight, QRubberBand.setGeometry, QRubberBand.show]

/-- The outcome of the column `startCapturingImpl` when a visual exists. -/
theorem ControllerMouseColumnsResizer.columns_startCapturingImpl_some (s : ControllerMouseColumnsResizer)
    (band : QRubberBand) (h : s.m_rubberBand = some band) :
    startCapturingImpl s = .aborted .assertion { s with base := { s.base with capturing := true } } := by
  simp [startCapturingImpl, ControllerMouseCaptured.startCapturingImpl, h]

/-- The outcome of the column `stopCapturingImpl` when a visual exists. -/
theorem ControllerMouseColumnsResizer.columns_stopCapturingImpl_some (s : ControllerMouseColumnsResizer)
    (band : QRubberBand) (h : s.m_rubberBand = some band) :
    stopCapturingImpl s
      = .done { s with base := { s.base with capturing := false }, m_rubberBand := none } := by
  simp [stopCapturingImpl, ControllerMouseCaptured.stopCapturingImpl, h]

/-- The outcome of the column `stopCapturingImpl` when no visual exists. -/
theorem ControllerMouseColumnsResizer.columns_stopCapturingImpl_none (s : ControllerMouseColumnsResizer)
    (h : s.m_rubberBand = none) :
    stopCapturingImpl s = .aborted .assertion s := by
  simp [stopCapturingImpl, h]

/-- The outcome of the column `deactivateImpl`, in every state. -/
theorem ControllerMouseColumnsResizer.columns_deactivateImpl_eq (InvalidIndex : Int)
    (s : ControllerMouseColumnsResizer) :
    deactivateImpl InvalidIndex s
      = .done { s with
          base := { s.base with
            active := false
            capturing := false
            activationState :=
              ⟨{ s.base.activationState.context with
                  widget := { s.base.activationState.context.widget with
                    cursor := s.m_oldCursor } }⟩ }
          m_position := 0
          m_trackPosition := 0
          m_columnIndex := InvalidIndex } := by
  simp [deactivateImpl, ControllerMouseCaptured.deactivateImpl, QWidget.setCursor]

/-- The outcome of the column `activateImpl` on an idle controller. -/
theorem ControllerMouseColumnsResizer.columns_activateImpl_idle (s : ControllerMouseColumnsResizer)
    (info : ActivationInfo) (h : s.base.active = false) :
    activateImpl s info
      = .done { s with
          base := { s.base with
            active := true
            activationState :=
              ⟨{ info.context with widget := { info.context.widget with
                  cursor := ⟨.SplitHCursor⟩ } }⟩ }
          m_position := info.cache.itemRect.topLeft.x
          m_trackPosition := info.context.point.x
          m_columnIndex := info.item.column
          m_oldCursor := info.context.widget.cursor } := by
  simp [activateImpl, ControllerMouseCaptured.activateImpl, h, QWidget.setCursor]

/-- The column `activateImpl` on an active controller stops at the assertion. -/
theorem ControllerMouseColumnsResizer.columns_activateImpl_active (s : ControllerMouseColumnsResizer)
    (info : ActivationInfo) (h : s.base.active = true) :
    activateImpl s info = .aborted .assertion s := by
  simp [activateImpl, ControllerMouseCaptured.activateImpl, h]

/-- Between `activate` and `deactivate`: a call other than `deactivate` that
returns on an active controller leaves it active and leaves the saved cursor and
the widget as they were. -/
theorem ControllerMouseColumnsResizer.columns_step_keeps_cursor (InvalidIndex : Int)
    (s s1 : ControllerMouseColumnsResizer) (c : HostCall)
    (hc : c.isDeactivate = false) (hact : s.base.active = true)
    (h : step InvalidIndex s c = .done s1) :
    s1.base.active = true ∧ s1.m_oldCursor = s.m_oldCursor ∧
      s1.base.activationState.context.widget = s.base.activationState.context.widget := by
  cases c with
  | deactivate => simp [HostCall.isDeactivate] at hc
  | accept info =>
    simp only [step, columns_acceptImpl_state, Outcome.done.injEq] at h
    subst h
    exact ⟨hact, rfl, rfl⟩
  | activate info =>
    simp [step, columns_activateImpl_active s info hact] at h
  | startCapturing =>
    cases hb : s.m_rubberBand with
    | none =>
      simp only [step, columns_startCapturingImpl_none s hb, Outcome.done.injEq] at h
      subst h
      exact ⟨hact, rfl, rfl⟩
    | some band => simp [step, columns_startCapturingImpl_some s band hb] at h
  | stopCapturing =>
    cases hb : s.m_rubberBand with
    | none => simp [step, columns_stopCapturingImpl_none s hb] at h
    | some band =>
      simp only [step, columns_stopCapturingImpl_some s band hb, Outcome.done.injEq] at h
      subst h
      exact ⟨hact, rfl, rfl⟩
  | apply =>
    simp only [step, applyImpl] at h
    split at h
    · cases h
    · split at h
      · cases h
      · cases h
        exact ⟨hact, rfl, rfl⟩
  | mouseMove event =>
    simp only [step, Outcome.done.injEq] at h
    subst h
    simp only [processMouseMove]
    split
    · exact ⟨hact, rfl, rfl⟩
    · exact ⟨hact, rfl, rfl⟩
  | pointerAt p =>
    simp only [step, Outcome.done.injEq] at h
    subst h
    exact ⟨hact, rfl, rfl⟩

/-- The same, for a sequence of calls. -/
theorem ControllerMouseColumnsResizer.columns_run_keeps_cursor (InvalidIndex : Int)
    (mid : List HostCall) (hmid : ∀ c ∈ mid, c.isDeactivate = false)
    (s s1 : ControllerMouseColumnsResizer) (hact : s.base.active = true)
    (h : run InvalidIndex s mid = .done s1) :
    s1.base.active = true ∧ s1.m_oldCursor = s.m_oldCursor ∧
      s1.base.activationState.context.widget = s.base.activationState.context.widget := by
  induction mid generalizing s with
  | nil =>
    simp only [run, Outcome.done.injEq] at h
    subst h
    exact ⟨hact, rfl, rfl⟩
  | cons c cs ih =>
    simp only [run] at h
    cases hstep : step InvalidIndex s c with
    | aborted why s2 => simp [hstep, Outcome.andThen] at h
    | done s2 =>
      simp only [hstep, Outcome.andThen] at h
      obtain ⟨h1, h2, h3⟩ := columns_step_keeps_cursor InvalidIndex s s2 c
        (hmid c (List.mem_cons_self _ _)) hact hstep
      obtain ⟨k1, k2, k3⟩ := ih (fun d hd => hmid d (List.mem_cons_of_mem _ hd)) s2 h1 h
      exact ⟨k1, k2.trans h2, k3.trans h3⟩

/-- The public `deactivate` of the column resizer, when it returns: the gesture
state is reset, the controller is idle and not capturing, the widget has the
saved cursor, the delta, the saved cursor and the line collection are as they
were, and no drag-feedback visual is left if a capture was running. -/
theorem ControllerMouseColumnsResizer.columns_deactivate_done (InvalidIndex : Int)
    (s s2 : ControllerMouseColumnsResizer) (h : deactivate InvalidIndex s = .done s2) :
    s2.m_position = 0 ∧ s2.m_trackPosition = 0 ∧ s2.m_columnIndex = InvalidIndex ∧
      s2.base.activationState.context.widget
        = { s.base.activationState.context.widget with cursor := s.m_oldCursor } ∧
      s2.base.active = false ∧ s2.base.capturing = false ∧
      (s.base.capturing = true → s2.m_rubberBand = none) ∧
      (s.base.capturing = false → s2.m_rubberBand = s.m_rubberBand) ∧
      s2.m_delta = s.m_delta ∧ s2.m_oldCursor = s.m_oldCursor ∧ s2.m_columns = s.m_columns := by
  unfold deactivate at h
  cases hcap : s.base.capturing with
  | false =>
    simp only [hcap, Bool.false_eq_true, if_false, columns_deactivateImpl_eq,
      Outcome.done.injEq] at h
    subst h
    exact ⟨rfl, rfl, rfl, rfl, rfl, rfl, fun h => Bool.noConfusion h, fun _ => rfl, rfl, rfl, rfl⟩
  | true =>
    simp only [hcap, if_true] at h
    cases hb : s.m_rubberBand with
    | none =>
      rw [columns_stopCapturingImpl_none s hb] at h
      cases h
    | some band =>
      rw [columns_stopCapturingImpl_some s band hb] at h
      simp only [Outcome.andThen, columns_deactivateImpl_eq, Outcome.done.injEq] at h
      subst h
      exact ⟨rfl, rfl, rfl, rfl, rfl, rfl, fun _ => rfl, fun h => Bool.noConfusion h, rfl, rfl, rfl⟩

/-- A gesture on an idle column resizer: `activate`, calls other than
`deactivate`, then `deactivate`.  If the calls return, the gesture state is
reset and the widget is the one handed to `activate`, cursor included. -/
theorem ControllerMouseColumnsResizer.columns_gesture_restores (InvalidIndex : Int)
    (s s2 : ControllerMouseColumnsResizer) (info : ActivationInfo) (mid : List HostCall)
    (hidle : s.base.active = false) (hmid : ∀ c ∈ mid, c.isDeactivate = false)
    (h : run InvalidIndex s ([.activate info] ++ mid ++ [.deactivate]) = .done s2) :
    s2.m_position = 0 ∧ s2.m_trackPosition = 0 ∧ s2.m_columnIndex = InvalidIndex ∧
      s2.base.activationState.context.widget = info.context.widget ∧
      s2.base.activationState.context.widget.cursor = info.context.widget.cursor := by
  rw [columns_run_append, columns_run_append, Outcome.andThen_eq_done] at h
  obtain ⟨s1, h01, h12⟩ := h
  rw [Outcome.andThen_eq_done] at h01
  obtain ⟨s0, h0, h1⟩ := h01
  simp only [run, step, columns_activateImpl_idle s info hidle, Outcome.andThen,
    Outcome.done.injEq] at h0
  obtain ⟨_, k2, k3⟩ := columns_run_keeps_cursor InvalidIndex mid hmid s0 s1 (by rw [← h0]) h1
  have h12a : deactivate InvalidIndex s1 = .done s2 := by
    cases hd : deactivate InvalidIndex s1 with
    | done s3 => simpa [run, step, hd, Outcome.andThen] using h12
    | aborted why s3 => simp [run, step, hd, Outcome.andThen] at h12
  obtain ⟨d1, d2, d3, d4, _⟩ := columns_deactivate_done InvalidIndex s1 s2 h12a
  have hw : s2.base.activationState.context.widget = info.context.widget := by
    rw [d4, k2, k3, ← h0]
  exact ⟨d1, d2, d3, hw, by rw [hw]⟩

/-! ## Lifecycle lemmas of the row resizer -/

/-- The outcome of the row `startCapturingImpl` when no visual exists. -/
theorem ControllerMouseRowsResizer.rows_startCapturingImpl_none (s : ControllerMouseRowsResizer)
    (h : s.m_rubberBand = none) :
    startCapturingImpl s
      = .done { s with
          base := { s.base with capturing := true }
          m_rubberBand := some
            ⟨⟨s.base.activationState.context.widget.rect.x1, s.base.activationState.point.y,
              s.base.activationState.context.widget.rect.x2, s.base.activationState.point.y⟩,
             true⟩ } := by
  simp [startCapturingImpl, ControllerMouseCaptured.startCapturingImpl, h, QRect.setTop,
    QRect.setBottom, QRubberBand.setGeometry, QRubberBand.show]

/-- The outcome of the row `startCapturingImpl` when a visual exists. -/
theorem ControllerMouseRowsResizer.rows_startCapturingImpl_some (s : ControllerMouseRowsResizer)
    (band : QRubberBand) (h : s.m_rubberBand = some band) :
    startCapturingImpl s = .aborted .assertion { s with base := { s.base with capturing := true } } := by
  simp [startCapturingImpl, ControllerMouseCaptured.startCapturingImpl, h]

/-- The outcome of the row `stopCapturingImpl` when a visual exists. -/
theorem ControllerMouseRowsResizer.rows_stopCapturingImpl_some (s : ControllerMouseRowsResizer)
    (band : QRubberBand) (h : s.m_rubberBand = some band) :
    stopCapturingImpl s
      = .done { s with base := { s.base with capturing := false }, m_rubberBand := none } := by
  simp [stopCapturingImpl, ControllerMouseCaptured.stopCapturingImpl, h]

/-- The outcome of the row `stopCapturingImpl` when no visual exists. -/
theorem ControllerMouseRowsResizer.rows_stopCapturingImpl_none (s : ControllerMouseRowsResizer)
    (h : s.m_rubberBand = none) :
    stopCapturingImpl s = .aborted .assertion s := by
  simp [stopCapturingImpl, h]

/-- The outcome of the row `deactivateImpl`, in every state. -/
theorem ControllerMouseRowsResizer.rows_deactivateImpl_eq (InvalidIndex : Int)
    (s : ControllerMouseRowsResizer) :
    deactivateImpl InvalidIndex s
      = .done { s with
          base := { s.base with
            active := false
            capturing := false
            activationState :=
              ⟨{ s.base.activationState.context with
                  widget := { s.base.activationState.context.widget with
                    cursor := s.m_oldCursor } }⟩ }
          m_position := 0
          m_trackPosition := 0
          m_rowIndex := InvalidIndex } := by
  simp [deactivateImpl, ControllerMouseCaptured.deactivateImpl, QWidget.setCursor]

/-- The outcome of the row `activateImpl` on an idle controller. -/
theorem ControllerMouseRowsResizer.rows_activateImpl_idle (s : ControllerMouseRowsResizer)
    (info : ActivationInfo) (h : s.base.active = false) :
    activateImpl s info
      = .done { s with
          base := { s.base with
            active := true
            activationState :=
              ⟨{ info.context with widget := { info.context.widget with
                  cursor := ⟨.SplitVCursor⟩ } }⟩ }
          m_position := info.cache.itemRect.topLeft.y
          m_trackPosition := info.context.point.y
          m_rowIndex := info.item.row
          m_oldCursor := info.context.widget.cursor } := by
  simp [activateImpl, ControllerMouseCaptured.activateImpl, h, QWidget.setCursor]

/-- The column `activateImpl` on an active controller stops at the assertion. -/
theorem ControllerMouseRowsResizer.rows_activateImpl_active (s : ControllerMouseRowsResizer)
    (info : ActivationInfo) (h : s.base.active = true) :
    activateImpl s info = .aborted .assertion s := by
  simp [activateImpl, ControllerMouseCaptured.activateImpl, h]

/-- Between `activate` and `deactivate`: a call other than `deactivate` that
returns on an active controller leaves it active and leaves the saved cursor and
the widget as they were. -/
theorem ControllerMouseRowsResizer.rows_step_keeps_cursor (InvalidIndex : Int)
    (s s1 : ControllerMouseRowsResizer) (c : HostCall)
    (hc : c.isDeactivate = false) (hact : s.base.active = true)
    (h : step InvalidIndex s c = .done s1) :
    s1.base.active = true ∧ s1.m_oldCursor = s.m_oldCursor ∧
      s1.base.activationState.context.widget = s.base.activationState.context.widget := by
  cases c with
  | deactivate => simp [HostCall.isDeactivate] at hc
  | accept info =>
    simp only [step, rows_acceptImpl_state, Outcome.done.injEq] at h
    subst h
    exact ⟨hact, rfl, rfl⟩
  | activate info =>
    simp [step, rows_activateImpl_active s info hact] at h
  | startCapturing =>
    cases hb : s.m_rubberBand with
    | none =>
      simp only [step, rows_startCapturingImpl_none s hb, Outcome.done.injEq] at h
      subst h
      exact ⟨hact, rfl, rfl⟩
    | some band => simp [step, rows_startCapturingImpl_some s band hb] at h
  | stopCapturing =>
    cases hb : s.m_rubberBand with
    | none => simp [step, rows_stopCapturingImpl_none s hb] at h
    | some band =>
      simp only [step, rows_stopCapturingImpl_some s band hb, Outcome.done.injEq] at h
      subst h
      exact ⟨hact, rfl, rfl⟩
  | apply =>
    simp only [step, applyImpl] at h
    split at h
    · cases h
    · split at h
      · cases h
      · cases h
        exact ⟨hact, rfl, rfl⟩
  | mouseMove event =>
    simp only [step, Outcome.done.injEq] at h
    subst h
    simp only [processMouseMove]
    split
    · exact ⟨hact, rfl, rfl⟩
    · exact ⟨hact, rfl, rfl⟩
  | pointerAt p =>
    simp only [step, Outcome.done.injEq] at h
    subst h
    exact ⟨hact, rfl, rfl⟩

/-- The same, for a sequence of calls. -/
theorem ControllerMouseRowsResizer.rows_run_keeps_cursor (InvalidIndex : Int)
    (mid : List HostCall) (hmid : ∀ c ∈ mid, c.isDeactivate = false)
    (s s1 : ControllerMouseRowsResizer) (hact : s.base.active = true)
    (h : run InvalidIndex s mid = .done s1) :
    s1.base.active = true ∧ s1.m_oldCursor = s.m_oldCursor ∧
      s1.base.activationState.context.widget = s.base.activationState.context.widget := by
  induction mid generalizing s with
  | nil =>
    simp only [run, Outcome.done.injEq] at h
    subst h
    exact ⟨hact, rfl, rfl⟩
  | cons c cs ih =>
    simp only [run] at h
    cases hstep : step InvalidIndex s c with
    | aborted why s2 => simp [hstep, Outcome.andThen] at h
    | done s2 =>
      simp only [hstep, Outcome.andThen] at h
      obtain ⟨h1, h2, h3⟩ := rows_step_keeps_cursor InvalidIndex s s2 c
        (hmid c (List.mem_cons_self _ _)) hact hstep
      obtain ⟨k1, k2, k3⟩ := ih (fun d hd => hmid d (List.mem_cons_of_mem _ hd)) s2 h1 h
      exact ⟨k1, k2.trans h2, k3.trans h3⟩

/-- The public `deactivate` of the row resizer, when it returns: the gesture
state is reset, the controller is idle and not capturing, the widget has the
saved cursor, the delta, the saved cursor and the line collection are as they
were, and no drag-feedback visual is left if a capture was running. -/
theorem ControllerMouseRowsResizer.rows_deactivate_done (InvalidIndex : Int)
    (s s2 : ControllerMouseRowsResizer) (h : deactivate InvalidIndex s = .done s2) :
    s2.m_position = 0 ∧ s2.m_trackPosition = 0 ∧ s2.m_rowIndex = InvalidIndex ∧
      s2.base.activationState.context.widget
        = { s.base.activationState.context.widget with cursor := s.m_oldCursor } ∧
      s2.base.active = false ∧ s2.base.capturing = false ∧
      (s.base.capturing = true → s2.m_rubberBand = none) ∧
      (s.base.capturing = false → s2.m_rubberBand = s.m_rubberBand) ∧
      s2.m_delta = s.m_delta ∧ s2.m_oldCursor = s.m_oldCursor ∧ s2.m_rows = s.m_rows := by
  unfold deactivate at h
  cases hcap : s.base.capturing with
  | false =>
    simp only [hcap, Bool.false_eq_true, if_false, rows_deactivateImpl_eq,
      Outcome.done.injEq] at h
    subst h
    exact ⟨rfl, rfl, rfl, rfl, rfl, rfl, fun h => Bool.noConfusion h, fun _ => rfl, rfl, rfl, rfl⟩
  | true =>
    simp only [hcap, if_true] at h
    cases hb : s.m_rubberBand with
    | none =>
      rw [rows_stopCapturingImpl_none s hb] at h
      cases h
    | some band =>
      rw [rows_stopCapturingImpl_some s band hb] at h
      simp only [Outcome.andThen, rows_deactivateImpl_eq, Outcome.done.injEq] at h
      subst h
      exact ⟨rfl, rfl, rfl, rfl, rfl, rfl, fun _ => rfl, fun h => Bool.noConfusion h, rfl, rfl, rfl⟩

/-- A gesture on an idle row resizer: `activate`, calls other than
`deactivate`, then `deactivate`.  If the calls return, the gesture state is
reset and the widget is the one handed to `activate`, cursor included. -/
theorem ControllerMouseRowsResizer.rows_gesture_restores (InvalidIndex : Int)
    (s s2 : ControllerMouseRowsResizer) (info : ActivationInfo) (mid : List HostCall)
    (hidle : s.base.active = false) (hmid : ∀ c ∈ mid, c.isDeactivate = false)
    (h : run InvalidIndex s ([.activate info] ++ mid ++ [.deactivate]) = .done s2) :
    s2.m_position = 0 ∧ s2.m_trackPosition = 0 ∧ s2.m_rowIndex = InvalidIndex ∧
      s2.base.activationState.context.widget = info.context.widget ∧
      s2.base.activationState.context.widget.cursor = info.context.widget.cursor := by
  rw [rows_run_append, rows_run_append, Outcome.andThen_eq_done] at h
  obtain ⟨s1, h01, h12⟩ := h
  rw [Outcome.andThen_eq_done] at h01
  obtain ⟨s0, h0, h1⟩ := h01
  simp only [run, step, rows_activateImpl_idle s info hidle, Outcome.andThen,
    Outcome.done.injEq] at h0
  obtain ⟨_, k2, k3⟩ := rows_run_keeps_cursor InvalidIndex mid hmid s0 s1 (by rw [← h0]) h1
  have h12a : deactivate InvalidIndex s1 = .done s2 := by
    cases hd : deactivate InvalidIndex s1 with
    | done s3 => simpa [run, step, hd, Outcome.andThen] using h12
    | aborted why s3 => simp [run, step, hd, Outcome.andThen] at h12
  obtain ⟨d1, d2, d3, d4, _⟩ := rows_deactivate_done InvalidIndex s1 s2 h12a
  have hw : s2.base.activationState.context.widget = info.context.widget := by
    rw [d4, k2, k3, ← h0]
  exact ⟨d1, d2, d3, hw, by rw [hw]⟩

/-! ## Capture pairing -/

/-- C8. Capture pairing, for both resizers.  `startCapturingImpl` stops at a
failed assertion if and only if a drag-feedback visual already exists; otherwise
it returns with one visual, shown, whose geometry is the widget rectangle with
both edges of the resize axis at the pointer coordinate of the activation state.
`stopCapturingImpl` stops at a failed assertion if and only if no visual exists;
otherwise it returns with none.  So `startCapturing` then `stopCapturing` from a
state without visual returns in a state without visual, while two
`startCapturing` in a row, and `stopCapturing` on a state without visual (a new
controller in particular), stop at a failed assertion. -/
theorem C8_capture_pairing (InvalidIndex : Int) :
    (∀ s : ControllerMouseColumnsResizer,
      ((ControllerMouseColumnsResizer.startCapturingImpl s).isViolation = true
        ↔ s.m_rubberBand.isSome = true) ∧
      (s.m_rubberBand = none → ∃ s1 band,
        ControllerMouseColumnsResizer.startCapturingImpl s = .done s1 ∧
        s1.m_rubberBand = some band ∧ band.visible = true ∧
        band.geometry.left = s.base.activationState.point.x ∧
        band.geometry.right = s.base.activationState.point.x ∧
        band.geometry.top = s.base.activationState.context.widget.rect.top ∧
        band.geometry.bottom = s.base.activationState.context.widget.rect.bottom) ∧
      ((ControllerMouseColumnsResizer.stopCapturingImpl s).isViolation = true
        ↔ s.m_rubberBand = none) ∧
      (s.m_rubberBand.isSome = true → ∃ s1,
        ControllerMouseColumnsResizer.stopCapturingImpl s = .done s1 ∧ s1.m_rubberBand = none) ∧
      (s.m_rubberBand = none → ∃ s1,
        ControllerMouseColumnsResizer.run InvalidIndex s [.startCapturing, .stopCapturing]
          = .done s1 ∧ s1.m_rubberBand = none) ∧
      (ControllerMouseColumnsResizer.run InvalidIndex s
          [.startCapturing, .startCapturing]).isViolation = true ∧
      (s.m_rubberBand = none →
        (ControllerMouseColumnsResizer.run InvalidIndex s [.stopCapturing]).isViolation = true)) ∧
    (∀ (columns : Lines) (priority : Nat) (host : GuiContext),
      (ControllerMouseColumnsResizer.stopCapturingImpl
        (ControllerMouseColumnsResizer.new InvalidIndex columns priority host)).isViolation
          = true) ∧
    (∀ s : ControllerMouseRowsResizer,
      ((ControllerMouseRowsResizer.startCapturingImpl s).isViolation = true
        ↔ s.m_rubberBand.isSome = true) ∧
      (s.m_rubberBand = none → ∃ s1 band,
        ControllerMouseRowsResizer.startCapturingImpl s = .done s1 ∧
        s1.m_rubberBand = some band ∧ band.visible = true ∧
        band.geometry.top = s.base.activationState.point.y ∧
        band.geometry.bottom = s.base.activationState.point.y ∧
        band.geometry.left = s.base.activationState.context.widget.rect.left ∧
        band.geometry.right = s.base.activationState.context.widget.rect.right) ∧
      ((ControllerMouseRowsResizer.stopCapturingImpl s).isViolation = true
        ↔ s.m_rubberBand = none) ∧
      (s.m_rubberBand.isSome = true → ∃ s1,
        ControllerMouseRowsResizer.stopCapturingImpl s = .done s1 ∧ s1.m_rubberBand = none) ∧
      (s.m_rubberBand = none → ∃ s1,
        ControllerMouseRowsResizer.run InvalidIndex s [.startCapturing, .stopCapturing]
          = .done s1 ∧ s1.m_rubberBand = none) ∧
      (ControllerMouseRowsResizer.run InvalidIndex s
          [.startCapturing, .startCapturing]).isViolation = true ∧
      (s.m_rubberBand = none →
        (ControllerMouseRowsResizer.run InvalidIndex s [.stopCapturing]).isViolation = true)) ∧
    (∀ (rows : Lines) (priority : Nat) (host : GuiContext),
      (ControllerMouseRowsResizer.stopCapturingImpl
        (ControllerMouseRowsResizer.new InvalidIndex rows priority host)).isViolation
          = true) := by
  refine ⟨fun s => ?_, fun columns priority host => ?_, fun s => ?_, fun rows priority host => ?_⟩
  · cases hb : s.m_rubberBand with
    | none =>
      have h1 := ControllerMouseColumnsResizer.columns_startCapturingImpl_none s hb
      have h2 := ControllerMouseColumnsResizer.columns_stopCapturingImpl_none s hb
      refine ⟨by simp [h1, Outcome.isViolation], fun _ => ⟨_, _, h1, rfl, rfl, rfl, rfl, rfl, rfl⟩,
        by simp [h2, Outcome.isViolation], by simp, fun _ => ?_, ?_, fun _ => ?_⟩
      · simp only [ControllerMouseColumnsResizer.run, ControllerMouseColumnsResizer.step, h1,
          Outcome.andThen]
        rw [ControllerMouseColumnsResizer.columns_stopCapturingImpl_some _ _ rfl]
        exact ⟨_, rfl, rfl⟩
      · simp only [ControllerMouseColumnsResizer.run, ControllerMouseColumnsResizer.step, h1,
          Outcome.andThen]
        rw [ControllerMouseColumnsResizer.columns_startCapturingImpl_some _ _ rfl]
        rfl
      · simp [ControllerMouseColumnsResizer.run, ControllerMouseColumnsResizer.step, h2,
          Outcome.andThen, Outcome.isViolation]
    | some band =>
      have h1 := ControllerMouseColumnsResizer.columns_startCapturingImpl_some s band hb
      have h2 := ControllerMouseColumnsResizer.columns_stopCapturingImpl_some s band hb
      refine ⟨by simp [h1, Outcome.isViolation], by simp,
        by simp [h2, Outcome.isViolation], fun _ => ⟨_, h2, rfl⟩, by simp, ?_, by simp⟩
      simp [ControllerMouseColumnsResizer.run, ControllerMouseColumnsResizer.step, h1,
        Outcome.andThen, Outcome.isViolation]
  · rw [ControllerMouseColumnsResizer.columns_stopCapturingImpl_none _ rfl]
    rfl
  · cases hb : s.m_rubberBand with
    | none =>
      have h1 := ControllerMouseRowsResizer.rows_startCapturingImpl_none s hb
      have h2 := ControllerMouseRowsResizer.rows_stopCapturingImpl_none s hb
      refine ⟨by simp [h1, Outcome.isViolation], fun _ => ⟨_, _, h1, rfl, rfl, rfl, rfl, rfl, rfl⟩,
        by simp [h2, Outcome.isViolation], by simp, fun _ => ?_, ?_, fun _ => ?_⟩
      · simp only [ControllerMouseRowsResizer.run, ControllerMouseRowsResizer.step, h1,
          Outcome.andThen]
        rw [ControllerMouseRowsResizer.rows_stopCapturingImpl_some _ _ rfl]
        exact ⟨_, rfl, rfl⟩
      · simp only [ControllerMouseRowsResizer.run, ControllerMouseRowsResizer.step, h1,
          Outcome.andThen]
        rw [ControllerMouseRowsResizer.rows_startCapturingImpl_some _ _ rfl]
        rfl
      · simp [ControllerMouseRowsResizer.run, ControllerMouseRowsResizer.step, h2,
          Outcome.andThen, Outcome.isViolation]
    | some band =>
      have h1 := ControllerMouseRowsResizer.rows_startCapturingImpl_some s band hb
      have h2 := ControllerMouseRowsResizer.rows_stopCapturingImpl_some s band hb
      refine ⟨by simp [h1, Outcome.isViolation], by simp,
        by simp [h2, Outcome.isViolation], fun _ => ⟨_, h2, rfl⟩, by simp, ?_, by simp⟩
      simp [ControllerMouseRowsResizer.run, ControllerMouseRowsResizer.step, h1,
        Outcome.andThen, Outcome.isViolation]
  · rw [ControllerMouseRowsResizer.rows_stopCapturingImpl_none _ rfl]
    rfl

/-- C8 at an active column resizer with the pointer at x = 150 and an active
row resizer with the pointer at y = 8, on a widget of 640 by 480. -/
theorem C8_capture_pairing_witness :
    (∃ s1 band,
      ControllerMouseColumnsResizer.startCapturingImpl exampleActiveColumns = .done s1 ∧
      s1.m_rubberBand = some band ∧ band.visible = true ∧
      band.geometry.left = 150 ∧ band.geometry.right = 150 ∧
      band.geometry.top = 0 ∧ band.geometry.bottom = 479) ∧
    (∃ s1 band,
      ControllerMouseRowsResizer.startCapturingImpl exampleActiveRows = .done s1 ∧
      s1.m_rubberBand = some band ∧ band.visible = true ∧
      band.geometry.top = 8 ∧ band.geometry.bottom = 8 ∧
      band.geometry.left = 0 ∧ band.geometry.right = 639) :=
  ⟨((C8_capture_pairing (-1)).1 exampleActiveColumns).2.1 rfl,
   ((C8_capture_pairing (-1)).2.2.1 exampleActiveRows).2.1 rfl⟩

/-! ## Deactivation -/

/-- C9. `deactivateImpl` resets the gesture state and undoes the cursor change
of `activateImpl`, for both resizers.  In every state `deactivateImpl` returns
normally, with anchor 0, tracked position 0, line index `InvalidIndex` and the
widget cursor set to the saved cursor.  `activate` on an idle controller followed
by `deactivate`, capturing never started, returns normally and leaves the widget
with the cursor it had when handed to `activate`; the same holds when calls
other than `deactivate` come in between and return. -/
theorem C9_deactivate_resets_and_restores (InvalidIndex : Int) :
    (∀ s : ControllerMouseColumnsResizer, ∃ s1,
      ControllerMouseColumnsResizer.deactivateImpl InvalidIndex s = .done s1 ∧
      s1.m_position = 0 ∧ s1.m_trackPosition = 0 ∧ s1.m_columnIndex = InvalidIndex ∧
      s1.base.activationState.context.widget.cursor = s.m_oldCursor) ∧
    (∀ (s : ControllerMouseColumnsResizer) (info : ActivationInfo),
      s.base.active = false → ∃ s1 s2,
        ControllerMouseColumnsResizer.activateImpl s info = .done s1 ∧
        s1.base.activationState.context.widget.cursor = ⟨.SplitHCursor⟩ ∧
        s1.m_rubberBand = s.m_rubberBand ∧
        ControllerMouseColumnsResizer.deactivateImpl InvalidIndex s1 = .done s2 ∧
        s2.m_position = 0 ∧ s2.m_trackPosition = 0 ∧ s2.m_columnIndex = InvalidIndex ∧
        s2.base.activationState.context.widget.cursor = info.context.widget.cursor ∧
        s2.base.activationState.context.widget = info.context.widget) ∧
    (∀ (s s2 : ControllerMouseColumnsResizer) (info : ActivationInfo) (mid : List HostCall),
      s.base.active = false → (∀ c ∈ mid, c.isDeactivate = false) →
      ControllerMouseColumnsResizer.run InvalidIndex s ([.activate info] ++ mid ++ [.deactivate])
        = .done s2 →
      s2.m_position = 0 ∧ s2.m_trackPosition = 0 ∧ s2.m_columnIndex = InvalidIndex ∧
        s2.base.activationState.context.widget.cursor = info.context.widget.cursor) ∧
    (∀ s : ControllerMouseRowsResizer, ∃ s1,
      ControllerMouseRowsResizer.deactivateImpl InvalidIndex s = .done s1 ∧
      s1.m_position = 0 ∧ s1.m_trackPosition = 0 ∧ s1.m_rowIndex = InvalidIndex ∧
      s1.base.activationState.context.widget.cursor = s.m_oldCursor) ∧
    (∀ (s : ControllerMouseRowsResizer) (info : ActivationInfo),
      s.base.active = false → ∃ s1 s2,
        ControllerMouseRowsResizer.activateImpl s info = .done s1 ∧
        s1.base.activationState.context.widget.cursor = ⟨.SplitVCursor⟩ ∧
        s1.m_rubberBand = s.m_rubberBand ∧
        ControllerMouseRowsResizer.deactivateImpl InvalidIndex s1 = .done s2 ∧
        s2.m_position = 0 ∧ s2.m_trackPosition = 0 ∧ s2.m_rowIndex = InvalidIndex ∧
        s2.base.activationState.context.widget.cursor = info.context.widget.cursor ∧
        s2.base.activationState.context.widget = info.context.widget) ∧
    (∀ (s s2 : ControllerMouseRowsResizer) (info : ActivationInfo) (mid : List HostCall),
      s.base.active = false → (∀ c ∈ mid, c.isDeactivate = false) →
      ControllerMouseRowsResizer.run InvalidIndex s ([.activate info] ++ mid ++ [.deactivate])
        = .done s2 →
      s2.m_position = 0 ∧ s2.m_trackPosition = 0 ∧ s2.m_rowIndex = InvalidIndex ∧
        s2.base.activationState.context.widget.cursor = info.context.widget.cursor) := by
  refine ⟨fun s => ?_, fun s info hidle => ?_, fun s s2 info mid hidle hmid h => ?_,
    fun s => ?_, fun s info hidle => ?_, fun s s2 info mid hidle hmid h => ?_⟩
  · exact ⟨_, ControllerMouseColumnsResizer.columns_deactivateImpl_eq InvalidIndex s, rfl, rfl, rfl, rfl⟩
  · exact ⟨_, _, ControllerMouseColumnsResizer.columns_activateImpl_idle s info hidle, rfl, rfl,
      ControllerMouseColumnsResizer.columns_deactivateImpl_eq InvalidIndex _, rfl, rfl, rfl, rfl, rfl⟩
  · obtain ⟨h1, h2, h3, _, h5⟩ :=
      ControllerMouseColumnsResizer.columns_gesture_restores InvalidIndex s s2 info mid hidle hmid h
    exact ⟨h1, h2, h3, h5⟩
  · exact ⟨_, ControllerMouseRowsResizer.rows_deactivateImpl_eq InvalidIndex s, rfl, rfl, rfl, rfl⟩
  · exact ⟨_, _, ControllerMouseRowsResizer.rows_activateImpl_idle s info hidle, rfl, rfl,
      ControllerMouseRowsResizer.rows_deactivateImpl_eq InvalidIndex _, rfl, rfl, rfl, rfl, rfl⟩
  · obtain ⟨h1, h2, h3, _, h5⟩ :=
      ControllerMouseRowsResizer.rows_gesture_restores InvalidIndex s s2 info mid hidle hmid h
    exact ⟨h1, h2, h3, h5⟩

/-- C9 at a gesture on a new column resizer: activate, capture, move, stop,
apply, deactivate; the widget has its arrow cursor again. -/
theorem C9_deactivate_resets_and_restores_witness :
    (ControllerMouseColumnsResizer.run (-1)
        (ControllerMouseColumnsResizer.new (-1) ⟨[]⟩ 0 ⟨exampleWidget, ⟨0, 0⟩⟩)
        ([.activate (exampleInfo ⟨20, 0, 100, 24⟩ ⟨20, 0, 100, 24⟩ ⟨99, 12⟩ ⟨0, 2⟩)]
          ++ [.startCapturing, .mouseMove ⟨120, 12⟩, .stopCapturing, .apply]
          ++ [.deactivate])).state.m_position = 0 ∧
    (ControllerMouseColumnsResizer.run (-1)
        (ControllerMouseColumnsResizer.new (-1) ⟨[]⟩ 0 ⟨exampleWidget, ⟨0, 0⟩⟩)
        ([.activate (exampleInfo ⟨20, 0, 100, 24⟩ ⟨20, 0, 100, 24⟩ ⟨99, 12⟩ ⟨0, 2⟩)]
          ++ [.startCapturing, .mouseMove ⟨120, 12⟩, .stopCapturing, .apply]
          ++ [.deactivate])).state.m_trackPosition = 0 ∧
    (ControllerMouseColumnsResizer.run (-1)
        (ControllerMouseColumnsResizer.new (-1) ⟨[]⟩ 0 ⟨exampleWidget, ⟨0, 0⟩⟩)
        ([.activate (exampleInfo ⟨20, 0, 100, 24⟩ ⟨20, 0, 100, 24⟩ ⟨99, 12⟩ ⟨0, 2⟩)]
          ++ [.startCapturing, .mouseMove ⟨120, 12⟩, .stopCapturing, .apply]
          ++ [.deactivate])).state.m_columnIndex = -1 ∧
    (ControllerMouseColumnsResizer.run (-1)
        (ControllerMouseColumnsResizer.new (-1) ⟨[]⟩ 0 ⟨exampleWidget, ⟨0, 0⟩⟩)
        ([.activate (exampleInfo ⟨20, 0, 100, 24⟩ ⟨20, 0, 100, 24⟩ ⟨99, 12⟩ ⟨0, 2⟩)]
          ++ [.startCapturing, .mouseMove ⟨120, 12⟩, .stopCapturing, .apply]
          ++ [.deactivate])).state.base.activationState.context.widget.cursor
      = ⟨.ArrowCursor⟩ :=
  (C9_deactivate_resets_and_restores (-1)).2.2.1
    (ControllerMouseColumnsResizer.new (-1) ⟨[]⟩ 0 ⟨exampleWidget, ⟨0, 0⟩⟩) _
    (exampleInfo ⟨20, 0, 100, 24⟩ ⟨20, 0, 100, 24⟩ ⟨99, 12⟩ ⟨0, 2⟩)
    [.startCapturing, .mouseMove ⟨120, 12⟩, .stopCapturing, .apply]
    rfl (by decide) rfl

/-! ## The state machine of the lifecycle calls -/

/-- C11. The grab offset is not recomputed during a drag.  For both resizers
and every pointer move event, with or without a drag-feedback visual,
`processMouseMove` leaves `m_delta`, the anchor `m_position` and the line index
as they were; so after `accept` followed by any number of pointer moves the
stored delta is still the one of that `accept` call, trailing edge minus
pointer. -/
theorem C11_moves_keep_grab_offset (InvalidIndex : Int) :
    (∀ (s : ControllerMouseColumnsResizer) (event : QMouseEvent),
      (ControllerMouseColumnsResizer.processMouseMove s event).2.m_delta = s.m_delta ∧
      (ControllerMouseColumnsResizer.processMouseMove s event).2.m_position = s.m_position ∧
      (ControllerMouseColumnsResizer.processMouseMove s event).2.m_columnIndex
        = s.m_columnIndex) ∧
    (∀ (s : ControllerMouseColumnsResizer) (info : ActivationInfo) (moves : List HostCall),
      (∀ c ∈ moves, c.isMove = true) →
      ∃ s1, ControllerMouseColumnsResizer.run InvalidIndex s (.accept info :: moves) = .done s1 ∧
        s1.m_delta = info.cache.cacheView.rect.right - info.context.point.x ∧
        s1.m_position = s.m_position ∧ s1.m_columnIndex = s.m_columnIndex) ∧
    (∀ (s : ControllerMouseRowsResizer) (event : QMouseEvent),
      (ControllerMouseRowsResizer.processMouseMove s event).2.m_delta = s.m_delta ∧
      (ControllerMouseRowsResizer.processMouseMove s event).2.m_position = s.m_position ∧
      (ControllerMouseRowsResizer.processMouseMove s event).2.m_rowIndex = s.m_rowIndex) ∧
    (∀ (s : ControllerMouseRowsResizer) (info : ActivationInfo) (moves : List HostCall),
      (∀ c ∈ moves, c.isMove = true) →
      ∃ s1, ControllerMouseRowsResizer.run InvalidIndex s (.accept info :: moves) = .done s1 ∧
        s1.m_delta = info.cache.cacheView.rect.bottom - info.context.point.y ∧
        s1.m_position = s.m_position ∧ s1.m_rowIndex = s.m_rowIndex) := by
  refine ⟨fun s event => ?_, fun s info moves hmoves => ?_, fun s event => ?_,
    fun s info moves hmoves => ?_⟩
  · simp only [ControllerMouseColumnsResizer.processMouseMove]
    split <;> exact ⟨rfl, rfl, rfl⟩
  · obtain ⟨s1, h1, h2, h3, h4, _, _⟩ :=
      ControllerMouseColumnsResizer.columns_run_moves InvalidIndex moves hmoves
        (ControllerMouseColumnsResizer.acceptImpl s info).2
    refine ⟨s1, ?_, ?_, ?_, ?_⟩
    · simpa [ControllerMouseColumnsResizer.run, ControllerMouseColumnsResizer.step,
        Outcome.andThen] using h1
    · rw [h2, ControllerMouseColumnsResizer.columns_acceptImpl_state]
    · rw [h3, ControllerMouseColumnsResizer.columns_acceptImpl_state]
    · rw [h4, ControllerMouseColumnsResizer.columns_acceptImpl_state]
  · simp only [ControllerMouseRowsResizer.processMouseMove]
    split <;> exact ⟨rfl, rfl, rfl⟩
  · obtain ⟨s1, h1, h2, h3, h4, _, _⟩ :=
      ControllerMouseRowsResizer.rows_run_moves InvalidIndex moves hmoves
        (ControllerMouseRowsResizer.acceptImpl s info).2
    refine ⟨s1, ?_, ?_, ?_, ?_⟩
    · simpa [ControllerMouseRowsResizer.run, ControllerMouseRowsResizer.step,
        Outcome.andThen] using h1
    · rw [h2, ControllerMouseRowsResizer.rows_acceptImpl_state]
    · rw [h3, ControllerMouseRowsResizer.rows_acceptImpl_state]
    · rw [h4, ControllerMouseRowsResizer.rows_acceptImpl_state]

/-- C11 at an active column resizer: `accept` at edge 100 with the pointer at
99, then three pointer moves; the delta is 1. -/
theorem C11_moves_keep_grab_offset_witness :
    ∃ s1, ControllerMouseColumnsResizer.run (-1) exampleActiveColumns
        (.accept (exampleInfo ⟨20, 0, 100, 24⟩ ⟨20, 0, 100, 24⟩ ⟨99, 12⟩ ⟨0, 2⟩)
          :: [.mouseMove ⟨120, 12⟩, .pointerAt ⟨300, 5⟩, .mouseMove ⟨700, -3⟩]) = .done s1 ∧
      s1.m_delta = (exampleCacheView ⟨20, 0, 100, 24⟩).rect.right - 99 ∧
      s1.m_position = 20 ∧ s1.m_columnIndex = 2 :=
  (C11_moves_keep_grab_offset (-1)).2.1 exampleActiveColumns
    (exampleInfo ⟨20, 0, 100, 24⟩ ⟨20, 0, 100, 24⟩ ⟨99, 12⟩ ⟨0, 2⟩)
    [.mouseMove ⟨120, 12⟩, .pointerAt ⟨300, 5⟩, .mouseMove ⟨700, -3⟩] (by decide)

/-- C14. `acceptImpl` is a pure predicate up to its scratch delta, for both
resizers: in every controller state and for every activation info the state
afterwards is the state before with `m_delta` replaced, so the base sub-object,
the anchor, the tracked position, the line index, the saved cursor, the
drag-feedback visual and the line collection are unchanged; and the boolean
result is the same for any two controller states. -/
theorem C14_accept_frame :
    (∀ (s : ControllerMouseColumnsResizer) (info : ActivationInfo),
      (ControllerMouseColumnsResizer.acceptImpl s info).2
        = { s with m_delta := (ControllerMouseColumnsResizer.acceptImpl s info).2.m_delta } ∧
      (ControllerMouseColumnsResizer.acceptImpl s info).2.base = s.base ∧
      (ControllerMouseColumnsResizer.acceptImpl s info).2.m_position = s.m_position ∧
      (ControllerMouseColumnsResizer.acceptImpl s info).2.m_trackPosition = s.m_trackPosition ∧
      (ControllerMouseColumnsResizer.acceptImpl s info).2.m_columnIndex = s.m_columnIndex ∧
      (ControllerMouseColumnsResizer.acceptImpl s info).2.m_oldCursor = s.m_oldCursor ∧
      (ControllerMouseColumnsResizer.acceptImpl s info).2.m_rubberBand = s.m_rubberBand ∧
      (ControllerMouseColumnsResizer.acceptImpl s info).2.m_columns = s.m_columns) ∧
    (∀ (s t : ControllerMouseColumnsResizer) (info : ActivationInfo),
      (ControllerMouseColumnsResizer.acceptImpl s info).1
        = (ControllerMouseColumnsResizer.acceptImpl t info).1) ∧
    (∀ (s : ControllerMouseRowsResizer) (info : ActivationInfo),
      (ControllerMouseRowsResizer.acceptImpl s info).2
        = { s with m_delta := (ControllerMouseRowsResizer.acceptImpl s info).2.m_delta } ∧
      (ControllerMouseRowsResizer.acceptImpl s info).2.base = s.base ∧
      (ControllerMouseRowsResizer.acceptImpl s info).2.m_position = s.m_position ∧
      (ControllerMouseRowsResizer.acceptImpl s info).2.m_trackPosition = s.m_trackPosition ∧
      (ControllerMouseRowsResizer.acceptImpl s info).2.m_rowIndex = s.m_rowIndex ∧
      (ControllerMouseRowsResizer.acceptImpl s info).2.m_oldCursor = s.m_oldCursor ∧
      (ControllerMouseRowsResizer.acceptImpl s info).2.m_rubberBand = s.m_rubberBand ∧
      (ControllerMouseRowsResizer.acceptImpl s info).2.m_rows = s.m_rows) ∧
    (∀ (s t : ControllerMouseRowsResizer) (info : ActivationInfo),
      (ControllerMouseRowsResizer.acceptImpl s info).1
        = (ControllerMouseRowsResizer.acceptImpl t info).1) := by
  refine ⟨fun s info => ?_, fun s t info => ?_, fun s info => ?_, fun s t info => ?_⟩
  · rw [ControllerMouseColumnsResizer.columns_acceptImpl_state]
    exact ⟨rfl, rfl, rfl, rfl, rfl, rfl, rfl, rfl⟩
  · rw [Bool.eq_iff_iff, ControllerMouseColumnsResizer.columns_acceptImpl_iff,
      ControllerMouseColumnsResizer.columns_acceptImpl_iff]
  · rw [ControllerMouseRowsResizer.rows_acceptImpl_state]
    exact ⟨rfl, rfl, rfl, rfl, rfl, rfl, rfl, rfl⟩
  · rw [Bool.eq_iff_iff, ControllerMouseRowsResizer.rows_acceptImpl_iff,
      ControllerMouseRowsResizer.rows_acceptImpl_iff]

/-! ## Construction and copies of cache entries -/

/-- C12. Construction of a cache entry is never half-valid: the default
constructor always stops at its assertion; the constructor from a layout, a
view and a rectangle stops at an assertion if and only if the layout or the
view is null; and a construction that returns yields the entry holding exactly
the given layout, view and rectangle, with the tooltip flag false and no
sub-entries. -/
theorem C12_construction :
    CacheView.default.isViolation = true ∧
    (∀ (layout view : Option Nat) (rect : QRect),
      ((CacheView.new layout view rect).isViolation = true ↔ (layout = none ∨ view = none)) ∧
      ((CacheView.new layout view rect).isViolation = false →
        CacheView.new layout view rect = .done (.mk layout view rect false [])) ∧
      (∀ e, CacheView.new layout view rect = .done e →
        layout ≠ none ∧ view ≠ none ∧
        e.m_layout = layout ∧ e.m_view = view ∧ e.m_rect = rect ∧
        e.m_showTooltip = false ∧ e.m_subViews = [])) := by
  refine ⟨rfl, fun layout view rect => ?_⟩
  cases layout <;> cases view <;>
    simp [CacheView.new, Outcome.isViolation, CacheView.m_layout, CacheView.m_view,
      CacheView.m_rect, CacheView.m_showTooltip, CacheView.m_subViews]

/-- C12 at layout address 1, view address 2 and a rectangle: the entry built,
and the two constructions with a null argument stopping at the assertion. -/
theorem C12_construction_witness :
    CacheView.new (some 1) (some 2) ⟨0, 0, 9, 9⟩
      = .done (.mk (some 1) (some 2) ⟨0, 0, 9, 9⟩ false []) ∧
    (CacheView.new none (some 2) ⟨0, 0, 9, 9⟩).isViolation = true ∧
    (CacheView.new (some 1) none ⟨0, 0, 9, 9⟩).isViolation = true :=
  ⟨(C12_construction.2 (some 1) (some 2) ⟨0, 0, 9, 9⟩).2.1 rfl,
   (C12_construction.2 none (some 2) ⟨0, 0, 9, 9⟩).1.2 (Or.inl rfl),
   (C12_construction.2 (some 1) none ⟨0, 0, 9, 9⟩).1.2 (Or.inr rfl)⟩

/-- C18. Copies of cache entries have value semantics.  For every entry `e` and
every target, the copy-constructed entry and the target after assignment from
`e` hold the layout address, the view address, the rectangle and the whole list
of sub-entries of `e` (they are equal to `e` as values, nested entries
included); assigning from `e` twice is the same as assigning once, and
assigning an entry to itself leaves it as it is. -/
theorem C18_copies_are_values (e target : CacheView) :
    (CacheView.copy e).m_layout = e.m_layout ∧
    (CacheView.copy e).m_view = e.m_view ∧
    (CacheView.copy e).m_rect = e.m_rect ∧
    (CacheView.copy e).m_subViews = e.m_subViews ∧
    CacheView.copy e = e ∧
    (CacheView.assign target e).m_layout = e.m_layout ∧
    (CacheView.assign target e).m_view = e.m_view ∧
    (CacheView.assign target e).m_rect = e.m_rect ∧
    (CacheView.assign target e).m_subViews = e.m_subViews ∧
    CacheView.assign target e = e ∧
    CacheView.assign (CacheView.assign target e) e = CacheView.assign target e ∧
    CacheView.assign e e = e := by
  cases e
  cases target
  exact ⟨rfl, rfl, rfl, rfl, rfl, rfl, rfl, rfl, rfl, rfl, rfl, rfl⟩

/-- C20. The tooltip flag survives everything except `draw`.  For every entry,
a `cleanupDraw` or `tooltipText` call that returns leaves the entry, flag
included, as it was; a copy-constructed entry and the target of an assignment
have the flag of their source; so `tooltipText` after `draw` followed by
`cleanupDraw` answers as directly after `draw`, and a copy (or assignment
target) of an entry answers `tooltipText` exactly as the entry does. -/
theorem C20_flag_survives (env : Collaborators) (e target : CacheView) :
    (∀ (painter : QPainter) (ctx : GuiContext) (item : ItemID) (itemRect : QRect)
        (visibleRect : Option QRect) (e1 : CacheView),
      CacheView.cleanupDraw env e painter ctx item itemRect visibleRect = .done e1 →
      e1 = e ∧ e1.m_showTooltip = e.m_showTooltip ∧ e1.m_layout = e.m_layout ∧
        e1.m_view = e.m_view ∧ e1.m_rect = e.m_rect ∧ e1.m_subViews = e.m_subViews) ∧
    (∀ (item : ItemID) (text : String) (e1 : CacheView),
      CacheView.step env e (.tooltipText item text) = .done e1 →
      e1 = e ∧ e1.m_showTooltip = e.m_showTooltip) ∧
    (CacheView.copy e).m_showTooltip = e.m_showTooltip ∧
    (CacheView.assign target e).m_showTooltip = e.m_showTooltip ∧
    (∀ (painter : QPainter) (ctx : GuiContext) (item : ItemID) (itemRect : QRect)
        (visibleRect : Option QRect) (drawn cleaned : CacheView) (item2 : ItemID) (text : String),
      CacheView.draw env e painter ctx item itemRect visibleRect = .done drawn →
      CacheView.cleanupDraw env drawn painter ctx item itemRect visibleRect = .done cleaned →
      CacheView.tooltipText env cleaned item2 text = CacheView.tooltipText env drawn item2 text) ∧
    (∀ (item : ItemID) (text : String),
      CacheView.tooltipText env (CacheView.copy e) item text
        = CacheView.tooltipText env e item text ∧
      CacheView.tooltipText env (CacheView.assign target e) item text
        = CacheView.tooltipText env e item text) := by
  have hclean : ∀ (x x1 : CacheView) (painter : QPainter) (ctx : GuiContext) (item : ItemID)
      (itemRect : QRect) (visibleRect : Option QRect),
      CacheView.cleanupDraw env x painter ctx item itemRect visibleRect = .done x1 → x1 = x :=
    fun x x1 painter ctx item itemRect visibleRect h =>
      CacheView.step_not_draw env x x1 (.cleanupDraw painter ctx item itemRect visibleRect) rfl h
  have hcopy : CacheView.copy e = e := by cases e; rfl
  have hassign : CacheView.assign target e = e := by cases e; cases target; rfl
  refine ⟨?_, ?_, by rw [hcopy], by rw [hassign], ?_, ?_⟩
  · intro painter ctx item itemRect visibleRect e1 h
    have := hclean e e1 painter ctx item itemRect visibleRect h
    subst this
    exact ⟨rfl, rfl, rfl, rfl, rfl, rfl⟩
  · intro item text e1 h
    have := CacheView.step_not_draw env e e1 (.tooltipText item text) rfl h
    subst this
    exact ⟨rfl, rfl⟩
  · intro painter ctx item itemRect visibleRect drawn cleaned item2 text _ h2
    rw [hclean drawn cleaned painter ctx item itemRect visibleRect h2]
  · intro item text
    rw [hcopy, hassign]
    exact ⟨rfl, rfl⟩

/-- C20 at an entry drawn by a view that asks for a tooltip: `draw` sets the
flag, `cleanupDraw` returns the drawn entry, and `tooltipText` answers `tip`
after it as before it. -/
theorem C20_flag_survives_witness :
    CacheView.draw exampleCollaborators (.mk (some 1) (some 2) ⟨0, 0, 9, 9⟩ false []) ⟨0⟩
        ⟨exampleWidget, ⟨0, 0⟩⟩ ⟨0, 0⟩ ⟨0, 0, 9, 9⟩ none
      = .done (.mk (some 1) (some 2) ⟨0, 0, 9, 9⟩ true []) ∧
    CacheView.cleanupDraw exampleCollaborators (.mk (some 1) (some 2) ⟨0, 0, 9, 9⟩ true [])
        ⟨0⟩ ⟨exampleWidget, ⟨0, 0⟩⟩ ⟨0, 0⟩ ⟨0, 0, 9, 9⟩ none
      = .done (.mk (some 1) (some 2) ⟨0, 0, 9, 9⟩ true []) ∧
    CacheView.tooltipText exampleCollaborators (.mk (some 1) (some 2) ⟨0, 0, 9, 9⟩ true [])
        ⟨0, 0⟩ "old"
      = CacheView.tooltipText exampleCollaborators (.mk (some 1) (some 2) ⟨0, 0, 9, 9⟩ true [])
        ⟨0, 0⟩ "old" ∧
    CacheView.tooltipText exampleCollaborators (.mk (some 1) (some 2) ⟨0, 0, 9, 9⟩ true [])
        ⟨0, 0⟩ "old" = .done (true, "tip") :=
  ⟨rfl, rfl,
   (C20_flag_survives exampleCollaborators (.mk (some 1) (some 2) ⟨0, 0, 9, 9⟩ false [])
      (.mk (some 1) (some 3) ⟨5, 5, 7, 7⟩ false [])).2.2.2.2.1 ⟨0⟩ ⟨exampleWidget, ⟨0, 0⟩⟩
      ⟨0, 0⟩ ⟨0, 0, 9, 9⟩ none (.mk (some 1) (some 2) ⟨0, 0, 9, 9⟩ true [])
      (.mk (some 1) (some 2) ⟨0, 0, 9, 9⟩ true []) ⟨0, 0⟩ "old" rfl rfl,
   rfl⟩

/-! ## Activation -/

/-- C13. Double activation is rejected, for both resizers: `activateImpl` on a
controller that is already active stops at the assertion of the base class
before anything is written, so the anchor, the tracked position, the line index
and the saved cursor are the recorded ones; in particular a second `activate`
before `deactivate` stops there in the state the first one left. -/
theorem C13_double_activation (InvalidIndex : Int) :
    (∀ (s : ControllerMouseColumnsResizer) (info : ActivationInfo),
      s.base.isActive = true →
      (ControllerMouseColumnsResizer.activateImpl s info).isViolation = true ∧
      ControllerMouseColumnsResizer.activateImpl s info = .aborted .assertion s ∧
      (ControllerMouseColumnsResizer.activateImpl s info).state.m_position = s.m_position ∧
      (ControllerMouseColumnsResizer.activateImpl s info).state.m_trackPosition
        = s.m_trackPosition ∧
      (ControllerMouseColumnsResizer.activateImpl s info).state.m_columnIndex
        = s.m_columnIndex ∧
      (ControllerMouseColumnsResizer.activateImpl s info).state.m_oldCursor = s.m_oldCursor) ∧
    (∀ (s : ControllerMouseColumnsResizer) (first second : ActivationInfo),
      s.base.isActive = false →
      ∃ s1, ControllerMouseColumnsResizer.activateImpl s first = .done s1 ∧
        ControllerMouseColumnsResizer.run InvalidIndex s [.activate first, .activate second]
          = .aborted .assertion s1) ∧
    (∀ (s : ControllerMouseRowsResizer) (info : ActivationInfo),
      s.base.isActive = true →
      (ControllerMouseRowsResizer.activateImpl s info).isViolation = true ∧
      ControllerMouseRowsResizer.activateImpl s info = .aborted .assertion s ∧
      (ControllerMouseRowsResizer.activateImpl s info).state.m_position = s.m_position ∧
      (ControllerMouseRowsResizer.activateImpl s info).state.m_trackPosition
        = s.m_trackPosition ∧
      (ControllerMouseRowsResizer.activateImpl s info).state.m_rowIndex
        = s.m_rowIndex ∧
      (ControllerMouseRowsResizer.activateImpl s info).state.m_oldCursor = s.m_oldCursor) ∧
    (∀ (s : ControllerMouseRowsResizer) (first second : ActivationInfo),
      s.base.isActive = false →
      ∃ s1, ControllerMouseRowsResizer.activateImpl s first = .done s1 ∧
        ControllerMouseRowsResizer.run InvalidIndex s [.activate first, .activate second]
          = .aborted .assertion s1) := by
  refine ⟨?_, ?_, ?_, ?_⟩
  · intro s info hact
    have h := ControllerMouseColumnsResizer.columns_activateImpl_active s info hact
    rw [h]
    exact ⟨rfl, rfl, rfl, rfl, rfl, rfl⟩
  · intro s first second hidle
    have h := ControllerMouseColumnsResizer.columns_activateImpl_idle s first hidle
    refine ⟨_, h, ?_⟩
    simp only [ControllerMouseColumnsResizer.run, ControllerMouseColumnsResizer.step, h,
      Outcome.andThen]
    rw [ControllerMouseColumnsResizer.columns_activateImpl_active _ second rfl]
  · intro s info hact
    have h := ControllerMouseRowsResizer.rows_activateImpl_active s info hact
    rw [h]
    exact ⟨rfl, rfl, rfl, rfl, rfl, rfl⟩
  · intro s first second hidle
    have h := ControllerMouseRowsResizer.rows_activateImpl_idle s first hidle
    refine ⟨_, h, ?_⟩
    simp only [ControllerMouseRowsResizer.run, ControllerMouseRowsResizer.step, h,
      Outcome.andThen]
    rw [ControllerMouseRowsResizer.rows_activateImpl_active _ second rfl]

/-- C13 at an active column resizer (anchor 20, tracked position 99, column 2)
that is activated again with another item. -/
theorem C13_double_activation_witness :
    (ControllerMouseColumnsResizer.activateImpl exampleActiveColumns
        (exampleInfo ⟨0, 0, 10, 24⟩ ⟨0, 0, 10, 24⟩ ⟨9, 12⟩ ⟨0, 0⟩)).isViolation = true ∧
    ControllerMouseColumnsResizer.activateImpl exampleActiveColumns
        (exampleInfo ⟨0, 0, 10, 24⟩ ⟨0, 0, 10, 24⟩ ⟨9, 12⟩ ⟨0, 0⟩)
      = .aborted .assertion exampleActiveColumns ∧
    (ControllerMouseColumnsResizer.activateImpl exampleActiveColumns
        (exampleInfo ⟨0, 0, 10, 24⟩ ⟨0, 0, 10, 24⟩ ⟨9, 12⟩ ⟨0, 0⟩)).state.m_position
      = exampleActiveColumns.m_position ∧
    (ControllerMouseColumnsResizer.activateImpl exampleActiveColumns
        (exampleInfo ⟨0, 0, 10, 24⟩ ⟨0, 0, 10, 24⟩ ⟨9, 12⟩ ⟨0, 0⟩)).state.m_trackPosition
      = exampleActiveColumns.m_trackPosition ∧
    (ControllerMouseColumnsResizer.activateImpl exampleActiveColumns
        (exampleInfo ⟨0, 0, 10, 24⟩ ⟨0, 0, 10, 24⟩ ⟨9, 12⟩ ⟨0, 0⟩)).state.m_columnIndex
      = exampleActiveColumns.m_columnIndex ∧
    (ControllerMouseColumnsResizer.activateImpl exampleActiveColumns
        (exampleInfo ⟨0, 0, 10, 24⟩ ⟨0, 0, 10, 24⟩ ⟨9, 12⟩ ⟨0, 0⟩)).state.m_oldCursor
      = exampleActiveColumns.m_oldCursor :=
  (C13_double_activation (-1)).1 exampleActiveColumns
    (exampleInfo ⟨0, 0, 10, 24⟩ ⟨0, 0, 10, 24⟩ ⟨9, 12⟩ ⟨0, 0⟩) rfl

/-- C16. Postcondition of `activateImpl`, for both resizers.  On an idle
controller `activateImpl` returns with the controller active, the anchor equal
to the resize-axis coordinate of the item rectangle's top-left corner (x for
columns, y for rows), the tracked position equal to the pointer's coordinate on
that axis, the line index equal to the item's column (row), the saved cursor
equal to the cursor the widget had when handed over, and the widget cursor the
horizontal-split (vertical-split) cursor; the delta stored by `acceptImpl`, the
line collection and the drag-feedback visual are unchanged. -/
theorem C16_activate_postcondition :
    (∀ (s : ControllerMouseColumnsResizer) (info : ActivationInfo),
      s.base.isActive = false →
      ∃ s1, ControllerMouseColumnsResizer.activateImpl s info = .done s1 ∧
        s1.base.isActive = true ∧
        s1.m_position = info.cache.itemRect.topLeft.x ∧
        s1.m_trackPosition = info.context.point.x ∧
        s1.m_columnIndex = info.item.column ∧
        s1.m_oldCursor = info.context.widget.cursor ∧
        (info.context.widget = s.base.activationState.context.widget →
          s1.m_oldCursor = s.base.activationState.context.widget.cursor) ∧
        s1.base.activationState.context.widget.cursor = ⟨.SplitHCursor⟩ ∧
        s1.base.activationState.context.widget.rect = info.context.widget.rect ∧
        s1.m_delta = s.m_delta ∧ s1.m_columns = s.m_columns ∧
        s1.m_rubberBand = s.m_rubberBand) ∧
    (∀ (s : ControllerMouseRowsResizer) (info : ActivationInfo),
      s.base.isActive = false →
      ∃ s1, ControllerMouseRowsResizer.activateImpl s info = .done s1 ∧
        s1.base.isActive = true ∧
        s1.m_position = info.cache.itemRect.topLeft.y ∧
        s1.m_trackPosition = info.context.point.y ∧
        s1.m_rowIndex = info.item.row ∧
        s1.m_oldCursor = info.context.widget.cursor ∧
        (info.context.widget = s.base.activationState.context.widget →
          s1.m_oldCursor = s.base.activationState.context.widget.cursor) ∧
        s1.base.activationState.context.widget.cursor = ⟨.SplitVCursor⟩ ∧
        s1.base.activationState.context.widget.rect = info.context.widget.rect ∧
        s1.m_delta = s.m_delta ∧ s1.m_rows = s.m_rows ∧
        s1.m_rubberBand = s.m_rubberBand) := by
  refine ⟨?_, ?_⟩
  · intro s info hidle
    refine ⟨_, ControllerMouseColumnsResizer.columns_activateImpl_idle s info hidle,
      rfl, rfl, rfl, rfl, rfl, ?_, rfl, rfl, rfl, rfl, rfl⟩
    intro h
    show info.context.widget.cursor = _
    rw [h]
  · intro s info hidle
    refine ⟨_, ControllerMouseRowsResizer.rows_activateImpl_idle s info hidle,
      rfl, rfl, rfl, rfl, rfl, ?_, rfl, rfl, rfl, rfl, rfl⟩
    intro h
    show info.context.widget.cursor = _
    rw [h]

/-- C16 at a new column resizer after `acceptImpl` stored delta 1, activated on
an item whose rectangle starts at x = 20, column 2, with the pointer at x = 99. -/
theorem C16_activate_postcondition_witness :
    ∃ s1, ControllerMouseColumnsResizer.activateImpl
          { ControllerMouseColumnsResizer.new (-1) ⟨[]⟩ 0 ⟨exampleWidget, ⟨0, 0⟩⟩ with
            m_delta := 1 }
          (exampleInfo ⟨20, 0, 100, 24⟩ ⟨20, 0, 100, 24⟩ ⟨99, 12⟩ ⟨0, 2⟩) = .done s1 ∧
        s1.base.isActive = true ∧
        s1.m_position = 20 ∧
        s1.m_trackPosition = 99 ∧
        s1.m_columnIndex = 2 ∧
        s1.m_oldCursor = ⟨.ArrowCursor⟩ ∧
        (exampleWidget = exampleWidget → s1.m_oldCursor = ⟨.ArrowCursor⟩) ∧
        s1.base.activationState.context.widget.cursor = ⟨.SplitHCursor⟩ ∧
        s1.base.activationState.context.widget.rect = ⟨0, 0, 639, 479⟩ ∧
        s1.m_delta = 1 ∧ s1.m_columns = ⟨[]⟩ ∧
        s1.m_rubberBand = none :=
  C16_activate_postcondition.1
    { ControllerMouseColumnsResizer.new (-1) ⟨[]⟩ 0 ⟨exampleWidget, ⟨0, 0⟩⟩ with m_delta := 1 }
    (exampleInfo ⟨20, 0, 100, 24⟩ ⟨20, 0, 100, 24⟩ ⟨99, 12⟩ ⟨0, 2⟩) rfl

/-! ## The pointer position read by `applyImpl` -/

/-- C15, as stated, fails: `applyImpl` does not read the tracked position
`m_trackPosition`.  An active column resizer with anchor 20, delta 1, tracked
position 99 and the pointer of the activation state at x = 150 commits size 131,
not `max 5 (99 - 20 + 1) = 80`; the same state is reached from a new controller
by `accept`, `activate` at x = 99, a pointer move to x = 150, and there `apply`
commits 131 as well. -/
theorem C15_apply_ignores_tracked_position :
    exampleActiveColumns.m_trackPosition = 99 ∧ exampleActiveColumns.m_position = 20 ∧
    exampleActiveColumns.m_delta = 1 ∧
    max MinLineSize (exampleActiveColumns.m_trackPosition - exampleActiveColumns.m_position
      + exampleActiveColumns.m_delta) = 80 ∧
    ControllerMouseColumnsResizer.applyImpl (-1) exampleActiveColumns
      = .done { exampleActiveColumns with m_columns := ⟨[(2, 131)]⟩ } ∧
    ControllerMouseColumnsResizer.run (-1)
        (ControllerMouseColumnsResizer.new (-1) ⟨[]⟩ 0 ⟨exampleWidget, ⟨0, 0⟩⟩)
        [.accept (exampleInfo ⟨20, 0, 100, 24⟩ ⟨20, 0, 100, 24⟩ ⟨99, 12⟩ ⟨0, 2⟩),
          .activate (exampleInfo ⟨20, 0, 100, 24⟩ ⟨20, 0, 100, 24⟩ ⟨99, 12⟩ ⟨0, 2⟩),
          .pointerAt ⟨150, 12⟩, .apply]
      = .done
          { base := { priority := 0, active := true, capturing := false,
                      activationState :=
                        ⟨⟨⟨⟨0, 0, 639, 479⟩, ⟨.SplitHCursor⟩⟩, ⟨150, 12⟩⟩⟩ }
            m_columns := ⟨[(2, 131)]⟩
            m_delta := 1
            m_position := 20
            m_trackPosition := 99
            m_columnIndex := 2
            m_oldCursor := ⟨.ArrowCursor⟩
            m_rubberBand := none } := by
  refine ⟨rfl, rfl, rfl, by decide, by decide, by decide⟩

/-- C15, amended.  For both resizers, the size committed by `applyImpl` on an
active controller with a valid line index is
`max MinLineSize (p - anchorPosition + delta)`, where `p` is the pointer
coordinate of the activation state on the resize axis, `anchorPosition` is
`m_position` and `delta` is the offset stored by `acceptImpl`; the tracked
position `m_trackPosition` has no influence on it, and the size is
`max MinLineSize (trackedPosition - anchorPosition + delta)` when the tracked
position equals that pointer coordinate. -/
theorem C15_apply_reads_activation_pointer (InvalidIndex : Int) :
    (∀ (s : ControllerMouseColumnsResizer) (tracked : Int),
      s.base.isActive = true → s.m_columnIndex ≠ InvalidIndex →
      ControllerMouseColumnsResizer.applyImpl InvalidIndex { s with m_trackPosition := tracked }
          = .done { s with
              m_trackPosition := tracked
              m_columns := s.m_columns.setLineSize s.m_columnIndex
                (max MinLineSize (s.base.activationState.point.x - s.m_position + s.m_delta)) } ∧
      (s.m_trackPosition = s.base.activationState.point.x →
        ControllerMouseColumnsResizer.applyImpl InvalidIndex s
          = .done { s with
              m_columns := s.m_columns.setLineSize s.m_columnIndex
                (max MinLineSize (s.m_trackPosition - s.m_position + s.m_delta)) })) ∧
    (∀ (s : ControllerMouseRowsResizer) (tracked : Int),
      s.base.isActive = true → s.m_rowIndex ≠ InvalidIndex →
      ControllerMouseRowsResizer.applyImpl InvalidIndex { s with m_trackPosition := tracked }
          = .done { s with
              m_trackPosition := tracked
              m_rows := s.m_rows.setLineSize s.m_rowIndex
                (max MinLineSize (s.base.activationState.point.y - s.m_position + s.m_delta)) } ∧
      (s.m_trackPosition = s.base.activationState.point.y →
        ControllerMouseRowsResizer.applyImpl InvalidIndex s
          = .done { s with
              m_rows := s.m_rows.setLineSize s.m_rowIndex
                (max MinLineSize (s.m_trackPosition - s.m_position + s.m_delta)) })) := by
  refine ⟨?_, ?_⟩
  · intro s tracked hact hidx
    constructor
    · simp [ControllerMouseColumnsResizer.applyImpl, hact, hidx]
    · intro h
      simp [ControllerMouseColumnsResizer.applyImpl, hact, hidx, h]
  · intro s tracked hact hidx
    constructor
    · simp [ControllerMouseRowsResizer.applyImpl, hact, hidx]
    · intro h
      simp [ControllerMouseRowsResizer.applyImpl, hact, hidx, h]

/-- C15, amended, at the active column resizer with the pointer at x = 150,
whatever the tracked position: size 131. -/
theorem C15_apply_reads_activation_pointer_witness :
    ControllerMouseColumnsResizer.applyImpl (-1) { exampleActiveColumns with m_trackPosition := 7 }
      = .done { exampleActiveColumns with
          m_trackPosition := 7
          m_columns := exampleActiveColumns.m_columns.setLineSize
            exampleActiveColumns.m_columnIndex
            (max MinLineSize (exampleActiveColumns.base.activationState.point.x
              - exampleActiveColumns.m_position + exampleActiveColumns.m_delta)) } ∧
    max MinLineSize (exampleActiveColumns.base.activationState.point.x
      - exampleActiveColumns.m_position + exampleActiveColumns.m_delta) = 131 :=
  ⟨((C15_apply_reads_activation_pointer (-1)).1 exampleActiveColumns 7 rfl (by decide)).1,
   by decide⟩

/-! ## Pointer moves -/

/-- C17. `processMouseMove` while capturing, for both resizers.  Whenever a
drag-feedback visual exists, `processMouseMove` returns `true` and sets the
visual's geometry to the widget rectangle with both edges of the resize axis at
the event's coordinate (left and right at `event.x` for columns, top and bottom
at `event.y` for rows) and the cross-axis edges of the widget rectangle, for
every coordinate, inside the widget or not; the visual stays shown or hidden as
it was and nothing else changes.  When no
visual exists it returns the result of the base class and sets no geometry. -/
theorem C17_move_while_capturing :
    (∀ (s : ControllerMouseColumnsResizer) (event : QMouseEvent) (band : QRubberBand),
      s.m_rubberBand = some band →
      (ControllerMouseColumnsResizer.processMouseMove s event).1 = true ∧
      (ControllerMouseColumnsResizer.processMouseMove s event).2
        = { s with m_rubberBand := (some
              ⟨⟨event.x, s.base.activationState.context.widget.rect.top,
                event.x, s.base.activationState.context.widget.rect.bottom⟩, band.visible⟩) }) ∧
    (∀ (s : ControllerMouseColumnsResizer) (event : QMouseEvent),
      s.m_rubberBand = none →
      (ControllerMouseColumnsResizer.processMouseMove s event).1
        = (ControllerMouseCaptured.processMouseMove s.base event).1 ∧
      (ControllerMouseColumnsResizer.processMouseMove s event).2
        = { s with base := (ControllerMouseCaptured.processMouseMove s.base event).2 } ∧
      (ControllerMouseColumnsResizer.processMouseMove s event).2.m_rubberBand = none) ∧
    (∀ (s : ControllerMouseRowsResizer) (event : QMouseEvent) (band : QRubberBand),
      s.m_rubberBand = some band →
      (ControllerMouseRowsResizer.processMouseMove s event).1 = true ∧
      (ControllerMouseRowsResizer.processMouseMove s event).2
        = { s with m_rubberBand := (some
              ⟨⟨s.base.activationState.context.widget.rect.left, event.y,
                s.base.activationState.context.widget.rect.right, event.y⟩, band.visible⟩) }) ∧
    (∀ (s : ControllerMouseRowsResizer) (event : QMouseEvent),
      s.m_rubberBand = none →
      (ControllerMouseRowsResizer.processMouseMove s event).1
        = (ControllerMouseCaptured.processMouseMove s.base event).1 ∧
      (ControllerMouseRowsResizer.processMouseMove s event).2
        = { s with base := (ControllerMouseCaptured.processMouseMove s.base event).2 } ∧
      (ControllerMouseRowsResizer.processMouseMove s event).2.m_rubberBand = none) := by
  refine ⟨?_, ?_, ?_, ?_⟩
  · intro s event band h
    simp [ControllerMouseColumnsResizer.processMouseMove, h, QRect.setLeft, QRect.setRight,
      QRubberBand.setGeometry, QRect.top, QRect.bottom]
  · intro s event h
    simp [ControllerMouseColumnsResizer.processMouseMove, h]
  · intro s event band h
    simp [ControllerMouseRowsResizer.processMouseMove, h, QRect.setTop, QRect.setBottom,
      QRubberBand.setGeometry, QRect.left, QRect.right]
  · intro s event h
    simp [ControllerMouseRowsResizer.processMouseMove, h]

/-- C17 at a capturing column resizer on a widget of 640 by 480 and a move to
x = 700, outside the widget: the visual is at x = 700 over the full height. -/
theorem C17_move_while_capturing_witness :
    (ControllerMouseColumnsResizer.processMouseMove
        { exampleActiveColumns with m_rubberBand := some ⟨⟨150, 0, 150, 479⟩, true⟩ }
        ⟨700, -3⟩).1 = true ∧
    (ControllerMouseColumnsResizer.processMouseMove
        { exampleActiveColumns with m_rubberBand := some ⟨⟨150, 0, 150, 479⟩, true⟩ }
        ⟨700, -3⟩).2
      = { exampleActiveColumns with m_rubberBand := some ⟨⟨700, 0, 700, 479⟩, true⟩ } :=
  C17_move_while_capturing.1
    { exampleActiveColumns with m_rubberBand := some ⟨⟨150, 0, 150, 479⟩, true⟩ }
    ⟨700, -3⟩ ⟨⟨150, 0, 150, 479⟩, true⟩ rfl

/-! ## The delta stored by `acceptImpl` -/

/-- C19. `acceptImpl` stores its delta unconditionally, for both resizers.
After `acceptImpl` returns, true or false, the stored delta is the trailing-edge
coordinate minus the pointer coordinate of that call; so a call that returns
false after a call that returned true replaces the delta of the accepted call
by a different one; and on an active controller with a valid line index
`applyImpl` after such a call commits the size computed from the new delta,
which differs from the size it would have committed before whenever that size
was above the minimum and the delta changed. -/
theorem C19_accept_stores_delta (InvalidIndex : Int) :
    (∀ (s : ControllerMouseColumnsResizer) (info : ActivationInfo),
      (ControllerMouseColumnsResizer.acceptImpl s info).2.m_delta
        = info.cache.cacheView.rect.right - info.context.point.x) ∧
    (∀ (s : ControllerMouseColumnsResizer) (accepted rejected : ActivationInfo),
      (ControllerMouseColumnsResizer.acceptImpl s accepted).1 = true →
      (ControllerMouseColumnsResizer.acceptImpl
          (ControllerMouseColumnsResizer.acceptImpl s accepted).2 rejected).1 = false →
      (ControllerMouseColumnsResizer.acceptImpl
          (ControllerMouseColumnsResizer.acceptImpl s accepted).2 rejected).2.m_delta
        = rejected.cache.cacheView.rect.right - rejected.context.point.x ∧
      (ControllerMouseColumnsResizer.acceptImpl
          (ControllerMouseColumnsResizer.acceptImpl s accepted).2 rejected).2.m_delta
        ≠ (ControllerMouseColumnsResizer.acceptImpl s accepted).2.m_delta) ∧
    (∀ (s : ControllerMouseColumnsResizer) (info : ActivationInfo),
      s.base.isActive = true → s.m_columnIndex ≠ InvalidIndex →
      ControllerMouseColumnsResizer.applyImpl InvalidIndex
          (ControllerMouseColumnsResizer.acceptImpl s info).2
        = .done { s with
            m_delta := info.cache.cacheView.rect.right - info.context.point.x
            m_columns := s.m_columns.setLineSize s.m_columnIndex
              (max 5 (s.base.activationState.point.x - s.m_position
                + (info.cache.cacheView.rect.right - info.context.point.x))) } ∧
      (5 < s.base.activationState.point.x - s.m_position + s.m_delta →
        info.cache.cacheView.rect.right - info.context.point.x ≠ s.m_delta →
        max 5 (s.base.activationState.point.x - s.m_position
            + (info.cache.cacheView.rect.right - info.context.point.x))
          ≠ max 5 (s.base.activationState.point.x - s.m_position + s.m_delta))) ∧
    (∀ (s : ControllerMouseRowsResizer) (info : ActivationInfo),
      (ControllerMouseRowsResizer.acceptImpl s info).2.m_delta
        = info.cache.cacheView.rect.bottom - info.context.point.y) ∧
    (∀ (s : ControllerMouseRowsResizer) (accepted rejected : ActivationInfo),
      (ControllerMouseRowsResizer.acceptImpl s accepted).1 = true →
      (ControllerMouseRowsResizer.acceptImpl
          (ControllerMouseRowsResizer.acceptImpl s accepted).2 rejected).1 = false →
      (ControllerMouseRowsResizer.acceptImpl
          (ControllerMouseRowsResizer.acceptImpl s accepted).2 rejected).2.m_delta
        = rejected.cache.cacheView.rect.bottom - rejected.context.point.y ∧
      (ControllerMouseRowsResizer.acceptImpl
          (ControllerMouseRowsResizer.acceptImpl s accepted).2 rejected).2.m_delta
        ≠ (ControllerMouseRowsResizer.acceptImpl s accepted).2.m_delta) ∧
    (∀ (s : ControllerMouseRowsResizer) (info : ActivationInfo),
      s.base.isActive = true → s.m_rowIndex ≠ InvalidIndex →
      ControllerMouseRowsResizer.applyImpl InvalidIndex
          (ControllerMouseRowsResizer.acceptImpl s info).2
        = .done { s with
            m_delta := info.cache.cacheView.rect.bottom - info.context.point.y
            m_rows := s.m_rows.setLineSize s.m_rowIndex
              (max 5 (s.base.activationState.point.y - s.m_position
                + (info.cache.cacheView.rect.bottom - info.context.point.y))) } ∧
      (5 < s.base.activationState.point.y - s.m_position + s.m_delta →
        info.cache.cacheView.rect.bottom - info.context.point.y ≠ s.m_delta →
        max 5 (s.base.activationState.point.y - s.m_position
            + (info.cache.cacheView.rect.bottom - info.context.point.y))
          ≠ max 5 (s.base.activationState.point.y - s.m_position + s.m_delta))) := by
  refine ⟨?_, ?_, ?_, ?_, ?_, ?_⟩
  · intro s info
    rw [ControllerMouseColumnsResizer.columns_acceptImpl_state]
  · intro s accepted rejected h1 h2
    rw [ControllerMouseColumnsResizer.columns_acceptImpl_iff] at h1
    rw [← Bool.not_eq_true, ControllerMouseColumnsResizer.columns_acceptImpl_iff] at h2
    rw [ControllerMouseColumnsResizer.columns_acceptImpl_state _ rejected,
      ControllerMouseColumnsResizer.columns_acceptImpl_state s accepted]
    refine ⟨rfl, ?_⟩
    change rejected.cache.cacheView.rect.right - rejected.context.point.x
      ≠ accepted.cache.cacheView.rect.right - accepted.context.point.x
    intro h
    rw [h] at h2
    exact h2 h1
  · intro s info hact hidx
    constructor
    · rw [ControllerMouseColumnsResizer.columns_acceptImpl_state]
      simp [ControllerMouseColumnsResizer.applyImpl, hact, hidx, MinLineSize]
    · intro hraw hne heq
      rw [max_eq_right (le_of_lt hraw)] at heq
      rcases le_total 5 (s.base.activationState.point.x - s.m_position
          + (info.cache.cacheView.rect.right - info.context.point.x)) with h | h
      · rw [max_eq_right h] at heq
        omega
      · rw [max_eq_left h] at heq
        omega
  · intro s info
    rw [ControllerMouseRowsResizer.rows_acceptImpl_state]
  · intro s accepted rejected h1 h2
    rw [ControllerMouseRowsResizer.rows_acceptImpl_iff] at h1
    rw [← Bool.not_eq_true, ControllerMouseRowsResizer.rows_acceptImpl_iff] at h2
    rw [ControllerMouseRowsResizer.rows_acceptImpl_state _ rejected,
      ControllerMouseRowsResizer.rows_acceptImpl_state s accepted]
    refine ⟨rfl, ?_⟩
    change rejected.cache.cacheView.rect.bottom - rejected.context.point.y
      ≠ accepted.cache.cacheView.rect.bottom - accepted.context.point.y
    intro h
    rw [h] at h2
    exact h2 h1
  · intro s info hact hidx
    constructor
    · rw [ControllerMouseRowsResizer.rows_acceptImpl_state]
      simp [ControllerMouseRowsResizer.applyImpl, hact, hidx, MinLineSize]
    · intro hraw hne heq
      rw [max_eq_right (le_of_lt hraw)] at heq
      rcases le_total 5 (s.base.activationState.point.y - s.m_position
          + (info.cache.cacheView.rect.bottom - info.context.point.y)) with h | h
      · rw [max_eq_right h] at heq
        omega
      · rw [max_eq_left h] at heq
        omega

/-- C19 at the active column resizer (anchor 20, delta 1, pointer at x = 150,
size 131 before): `acceptImpl` with the edge at 100 and the pointer at 50
returns false, stores delta 50, and `applyImpl` then commits 180. -/
theorem C19_accept_stores_delta_witness :
    (ControllerMouseColumnsResizer.acceptImpl exampleActiveColumns
        (exampleInfo ⟨20, 0, 100, 24⟩ ⟨20, 0, 100, 24⟩ ⟨50, 12⟩ ⟨0, 2⟩)).1 = false ∧
    (ControllerMouseColumnsResizer.applyImpl (-1)
        (ControllerMouseColumnsResizer.acceptImpl exampleActiveColumns
          (exampleInfo ⟨20, 0, 100, 24⟩ ⟨20, 0, 100, 24⟩ ⟨50, 12⟩ ⟨0, 2⟩)).2
      = .done { exampleActiveColumns with
          m_delta := (exampleCacheView ⟨20, 0, 100, 24⟩).rect.right - 50
          m_columns := exampleActiveColumns.m_columns.setLineSize
            exampleActiveColumns.m_columnIndex
            (max 5 (exampleActiveColumns.base.activationState.point.x
              - exampleActiveColumns.m_position
              + ((exampleCacheView ⟨20, 0, 100, 24⟩).rect.right - 50))) }) ∧
    max 5 (exampleActiveColumns.base.activationState.point.x
      - exampleActiveColumns.m_position
      + ((exampleCacheView ⟨20, 0, 100, 24⟩).rect.right - 50)) = 180 ∧
    ControllerMouseColumnsResizer.applyImpl (-1) exampleActiveColumns
      = .done { exampleActiveColumns with m_columns := ⟨[(2, 131)]⟩ } :=
  ⟨by decide,
   ((C19_accept_stores_delta (-1)).2.2.1 exampleActiveColumns
      (exampleInfo ⟨20, 0, 100, 24⟩ ⟨20, 0, 100, 24⟩ ⟨50, 12⟩ ⟨0, 2⟩) rfl (by decide)).1,
   by decide, by decide⟩

end Qi
